import Mathlib

/-!
Shallow embedding of the pULID identifier codec (Pixie-sh/ulid-js).

Strings are modelled as lists of UTF-16 code units (`List Nat`); byte
buffers (`Uint8Array`) as lists of naturals below 256.  JavaScript numbers
appearing as timestamps and scopes are modelled as `Int` (all code paths
under study only ever see integers).  Fallible operations return
`Except Err _`, one constructor per distinct throw site kind.
-/

set_option maxRecDepth 8000

namespace PULID

/-- Error kinds of the library, mirroring the throw sites in
`encoding.js`, `timestamp.js`, `scope.js`, `uuid.js` and `pulid.js`. -/
inductive Err where
  | invalidBytes
  | invalidLength
  | invalidChar
  | overflow
  | timestampRange
  | scopeRange
  | scopeProtected
  | entropyLength
  | uuidFormat
  | parseErr
deriving DecidableEq, Repr

deriving instance DecidableEq for Except

/-- Code units of the Crockford alphabet `0123456789ABCDEFGHJKMNPQRSTVWXYZ`
(`ENCODING` in encoding.js). -/
def ENCODING : List Nat :=
  [48, 49, 50, 51, 52, 53, 54, 55, 56, 57,
   65, 66, 67, 68, 69, 70, 71, 72, 74, 75, 77, 78, 80, 81, 82, 83, 84, 86, 87, 88, 89, 90]

/-- `ENCODING.charAt v` for a 5-bit value `v`. -/
def encChar (v : Nat) : Nat := ENCODING.getD v 0

/-- ASCII `toUpperCase` on a code unit (used to express the lowercase rows
of the `C2B32` table, which encoding.js fills by lowercasing each alphabet
character). -/
def upperCode (c : Nat) : Nat := if 97 ≤ c ∧ c ≤ 122 then c - 32 else c

/-- Value stored at index `c` of the 256-entry `C2B32` array built in
encoding.js lines 14-29: alphabet characters (upper or lower case) map to
their index, the confusable aliases I/i/L/l map to 1, O/o to 0, U/u to 22,
and every other entry holds 0xFF. -/
def tableVal (c : Nat) : Nat :=
  if c = 73 ∨ c = 105 ∨ c = 76 ∨ c = 108 then 1
  else if c = 79 ∨ c = 111 then 0
  else if c = 85 ∨ c = 117 then 22
  else
    let i := ENCODING.indexOf (upperCode c)
    if i < 32 then i else 255

/-- JavaScript array read `C2B32[c]`: a stored entry for `c < 256`,
`undefined` (`none`) beyond the array bounds. -/
def C2B32 (c : Nat) : Option Nat :=
  if c < 256 then some (tableVal c) else none

/-- `ToInt32` coercion applied by the bitwise operators of decodeBase32:
`undefined` becomes 0. -/
def jsToInt : Option Nat → Nat
  | none => 0
  | some v => v

/-- `s[i]` / `s.charCodeAt(i)` on an in-bounds index. -/
def g (s : List Nat) (i : Nat) : Nat := s.getD i 0

/-- The 26 characters built by `encodeBase32` (encoding.js lines 46-73)
from a 16-byte buffer. -/
def b32chars : List Nat → List Nat
  | [i0, i1, i2, i3, i4, i5, i6, i7, i8, i9, i10, i11, i12, i13, i14, i15] =>
    [encChar ((i0 &&& 224) >>> 5),
     encChar (i0 &&& 31),
     encChar ((i1 &&& 248) >>> 3),
     encChar (((i1 &&& 7) <<< 2) ||| ((i2 &&& 192) >>> 6)),
     encChar ((i2 &&& 62) >>> 1),
     encChar (((i2 &&& 1) <<< 4) ||| ((i3 &&& 240) >>> 4)),
     encChar (((i3 &&& 15) <<< 1) ||| ((i4 &&& 128) >>> 7)),
     encChar ((i4 &&& 124) >>> 2),
     encChar (((i4 &&& 3) <<< 3) ||| ((i5 &&& 224) >>> 5)),
     encChar (i5 &&& 31),
     encChar ((i6 &&& 248) >>> 3),
     encChar (((i6 &&& 7) <<< 2) ||| ((i7 &&& 192) >>> 6)),
     encChar ((i7 &&& 62) >>> 1),
     encChar (((i7 &&& 1) <<< 4) ||| ((i8 &&& 240) >>> 4)),
     encChar (((i8 &&& 15) <<< 1) ||| ((i9 &&& 128) >>> 7)),
     encChar ((i9 &&& 124) >>> 2),
     encChar (((i9 &&& 3) <<< 3) ||| ((i10 &&& 224) >>> 5)),
     encChar (i10 &&& 31),
     encChar ((i11 &&& 248) >>> 3),
     encChar (((i11 &&& 7) <<< 2) ||| ((i12 &&& 192) >>> 6)),
     encChar ((i12 &&& 62) >>> 1),
     encChar (((i12 &&& 1) <<< 4) ||| ((i13 &&& 240) >>> 4)),
     encChar (((i13 &&& 15) <<< 1) ||| ((i14 &&& 128) >>> 7)),
     encChar ((i14 &&& 124) >>> 2),
     encChar (((i14 &&& 3) <<< 3) ||| ((i15 &&& 224) >>> 5)),
     encChar (i15 &&& 31)]
  | _ => []

/-- `encodeBase32` (encoding.js line 37): length guard then the fixed
bit-slicing into 26 alphabet characters. -/
def encodeBase32 (id : List Nat) : Except Err (List Nat) :=
  if id.length ≠ 16 then .error .invalidBytes else .ok (b32chars id)

/-- Character acceptance test of the decode validation loop:
a character is rejected exactly when `C2B32[c] === 0xFF` (an undefined
entry beyond the array is not `=== 0xFF` and is accepted). -/
def validB32Char (c : Nat) : Bool := !(C2B32 c == some 255)

/-- The 16 bytes assembled by `decodeBase32` (encoding.js lines 109-126)
from the decode-table values of the 26 characters.  Each `Uint8Array`
store truncates modulo 256. -/
def decodeBytes : List Nat → List Nat
  | [s0, s1, s2, s3, s4, s5, s6, s7, s8, s9, s10, s11, s12, s13,
     s14, s15, s16, s17, s18, s19, s20, s21, s22, s23, s24, s25] =>
    let c := fun x => jsToInt (C2B32 x)
    [((c s0 <<< 5) ||| c s1) % 256,
     ((c s2 <<< 3) ||| (c s3 >>> 2)) % 256,
     ((c s3 <<< 6) ||| (c s4 <<< 1) ||| (c s5 >>> 4)) % 256,
     ((c s5 <<< 4) ||| (c s6 >>> 1)) % 256,
     ((c s6 <<< 7) ||| (c s7 <<< 2) ||| (c s8 >>> 3)) % 256,
     ((c s8 <<< 5) ||| c s9) % 256,
     ((c s10 <<< 3) ||| (c s11 >>> 2)) % 256,
     ((c s11 <<< 6) ||| (c s12 <<< 1) ||| (c s13 >>> 4)) % 256,
     ((c s13 <<< 4) ||| (c s14 >>> 1)) % 256,
     ((c s14 <<< 7) ||| (c s15 <<< 2) ||| (c s16 >>> 3)) % 256,
     ((c s16 <<< 5) ||| c s17) % 256,
     ((c s18 <<< 3) ||| (c s19 >>> 2)) % 256,
     ((c s19 <<< 6) ||| (c s20 <<< 1) ||| (c s21 >>> 4)) % 256,
     ((c s21 <<< 4) ||| (c s22 >>> 1)) % 256,
     ((c s22 <<< 7) ||| (c s23 <<< 2) ||| (c s24 >>> 3)) % 256,
     ((c s24 <<< 5) ||| c s25) % 256]
  | _ => []

/-- `decodeBase32` (encoding.js line 84): length guard, per-character
validation loop, char-code overflow guard (`str.charCodeAt(0) > '7'`),
then bit assembly. -/
def decodeBase32 (s : List Nat) : Except Err (List Nat) :=
  if s.length ≠ 26 then .error .invalidLength
  else if s.all validB32Char then
    if 55 < g s 0 then .error .overflow
    else .ok (decodeBytes s)
  else .error .invalidChar

/-- `bytesToTimestamp` (encoding.js line 136): big-endian fold of the
first six bytes. -/
def bytesToTimestamp : List Nat → Nat
  | b0 :: b1 :: b2 :: b3 :: b4 :: b5 :: _ =>
    ((((b0 * 256 + b1) * 256 + b2) * 256 + b3) * 256 + b4) * 256 + b5
  | _ => 0

/-- `bytesToScope` (encoding.js line 151): plain big-endian read of bytes
6-7, with no reserved-value check. -/
def bytesToScope (bytes : List Nat) : Nat := (g bytes 6 <<< 8) ||| g bytes 7

/-- `bytesToEntropy` (encoding.js line 160): `bytes.slice(8, 16)`. -/
def bytesToEntropy (bytes : List Nat) : List Nat := (bytes.drop 8).take 8

/-- `MAX_TIMESTAMP` of timestamp.js. -/
def MAX_TIMESTAMP : Int := 281474976710655

/-- `TimestampGenerator.validate` (timestamp.js line 33) on an integer
input: range check against `MIN_TIMESTAMP = 0` and `MAX_TIMESTAMP`. -/
def validateTimestampE (t : Int) : Except Err Unit :=
  if t < 0 then .error .timestampRange
  else if MAX_TIMESTAMP < t then .error .timestampRange
  else .ok ()

/-- Big-endian byte extraction loop of `timestampToBytes`
(timestamp.js lines 70-74): `bytes[i] = t & 0xff; t = floor(t / 256)`
for `i = 5` down to `0`. -/
def tsLoop : Nat → Nat → List Nat
  | 0, _ => []
  | Nat.succ k, t => tsLoop k (t / 256) ++ [t % 256]

/-- `TimestampGenerator.timestampToBytes` (timestamp.js line 67):
validation then the 6-byte big-endian write. -/
def timestampToBytes (t : Int) : Except Err (List Nat) :=
  match validateTimestampE t with
  | .error e => .error e
  | .ok _ => .ok (tsLoop 6 t.toNat)

/-- `ScopeManager.validate` of src/scope.js (line 24): integer in
`MIN_SCOPE = 1 .. MAX_SCOPE = 65535`, with scope 0 additionally listed in
`PROTECTED_SCOPES`. -/
def validateScopeE (s : Int) : Except Err Unit :=
  if s < 1 ∨ 65535 < s then .error .scopeRange
  else if s = 0 then .error .scopeProtected
  else .ok ()

/-- `ScopeManager.validate` of the second scope.js variant in the
repository (src/unnamed/part_002 line 24): rejects negatives, accepts 0
(returning `MAX_SCOPE`), rejects above 65535. -/
def validateScopeE_v2 (s : Int) : Except Err Unit :=
  if s < 0 then .error .scopeRange
  else if s = 0 then .ok ()
  else if 65535 < s then .error .scopeRange
  else .ok ()

/-- `ScopeManager.scopeToBytes` of src/scope.js (line 61): validation then
big-endian 2-byte write. -/
def scopeToBytes (s : Int) : Except Err (List Nat) :=
  match validateScopeE s with
  | .error e => .error e
  | .ok _ => .ok [(s.toNat >>> 8) &&& 255, s.toNat &&& 255]

/-- Lowercase hex digit of a 4-bit value, as produced by
`b.toString(16)` in `formatAsUUID`. -/
def hexChar (n : Nat) : Nat := if n < 10 then 48 + n else 87 + n

/-- Two-character hex rendering of a byte
(`b.toString(16).padStart(2, '0')`). -/
def byteToHex (x : Nat) : List Nat := [hexChar (x / 16), hexChar (x % 16)]

/-- `UUIDConverter.formatAsUUID` (uuid.js line 59): hex-encode the 16
bytes and insert hyphens in the 8-4-4-4-12 grouping.  The trailing
`toLowerCase()` is the identity here because `toString(16)` already emits
lowercase digits. -/
def formatAsUUID : List Nat → Except Err (List Nat)
  | [x0, x1, x2, x3, x4, x5, x6, x7, x8, x9, x10, x11, x12, x13, x14, x15] =>
    .ok (byteToHex x0 ++ byteToHex x1 ++ byteToHex x2 ++ byteToHex x3 ++ 45 ::
         (byteToHex x4 ++ byteToHex x5 ++ 45 ::
          (byteToHex x6 ++ byteToHex x7 ++ 45 ::
           (byteToHex x8 ++ byteToHex x9 ++ 45 ::
            (byteToHex x10 ++ byteToHex x11 ++ byteToHex x12 ++
             byteToHex x13 ++ byteToHex x14 ++ byteToHex x15)))))
  | _ => .error .invalidBytes

/-- Case-insensitive hex digit test of `UUID_REGEX`. -/
def isHexDigitCode (c : Nat) : Bool :=
  (48 ≤ c && c ≤ 57) || (97 ≤ c && c ≤ 102) || (65 ≤ c && c ≤ 70)

/-- `UUID_REGEX.test` on a 36-code-unit string: the four hyphens sit at
positions 8, 13, 18 and 23 and every other position holds a hex digit. -/
def uuidRegexTest : List Nat → Bool
  | a0 :: a1 :: a2 :: a3 :: a4 :: a5 :: a6 :: a7 :: h1 ::
    b0 :: b1 :: b2 :: b3 :: h2 :: c0 :: c1 :: c2 :: c3 :: h3 ::
    d0 :: d1 :: d2 :: d3 :: h4 ::
    e0 :: e1 :: e2 :: e3 :: e4 :: e5 :: e6 :: e7 :: e8 :: e9 :: e10 :: e11 :: [] =>
    isHexDigitCode a0 && isHexDigitCode a1 && isHexDigitCode a2 && isHexDigitCode a3 &&
    isHexDigitCode a4 && isHexDigitCode a5 && isHexDigitCode a6 && isHexDigitCode a7 &&
    h1 == 45 &&
    isHexDigitCode b0 && isHexDigitCode b1 && isHexDigitCode b2 && isHexDigitCode b3 &&
    h2 == 45 &&
    isHexDigitCode c0 && isHexDigitCode c1 && isHexDigitCode c2 && isHexDigitCode c3 &&
    h3 == 45 &&
    isHexDigitCode d0 && isHexDigitCode d1 && isHexDigitCode d2 && isHexDigitCode d3 &&
    h4 == 45 &&
    isHexDigitCode e0 && isHexDigitCode e1 && isHexDigitCode e2 && isHexDigitCode e3 &&
    isHexDigitCode e4 && isHexDigitCode e5 && isHexDigitCode e6 && isHexDigitCode e7 &&
    isHexDigitCode e8 && isHexDigitCode e9 && isHexDigitCode e10 && isHexDigitCode e11
  | _ => false

/-- ASCII `toLowerCase` on a code unit. -/
def lowerCode (c : Nat) : Nat := if 65 ≤ c ∧ c ≤ 90 then c + 32 else c

/-- `parseInt` value of one lowercase hex digit. -/
def hexVal (c : Nat) : Nat :=
  if 48 ≤ c ∧ c ≤ 57 then c - 48
  else if 97 ≤ c ∧ c ≤ 102 then c - 87
  else 0

/-- The byte-pair parsing loop of `uuidToBytes` (uuid.js lines 98-107) on
the 32 hyphen-free hex characters. -/
def hexPairsToBytes : List Nat → List Nat
  | [h0, h1, h2, h3, h4, h5, h6, h7, h8, h9, h10, h11, h12, h13, h14, h15,
     h16, h17, h18, h19, h20, h21, h22, h23, h24, h25, h26, h27, h28, h29, h30, h31] =>
    [hexVal h0 * 16 + hexVal h1, hexVal h2 * 16 + hexVal h3,
     hexVal h4 * 16 + hexVal h5, hexVal h6 * 16 + hexVal h7,
     hexVal h8 * 16 + hexVal h9, hexVal h10 * 16 + hexVal h11,
     hexVal h12 * 16 + hexVal h13, hexVal h14 * 16 + hexVal h15,
     hexVal h16 * 16 + hexVal h17, hexVal h18 * 16 + hexVal h19,
     hexVal h20 * 16 + hexVal h21, hexVal h22 * 16 + hexVal h23,
     hexVal h24 * 16 + hexVal h25, hexVal h26 * 16 + hexVal h27,
     hexVal h28 * 16 + hexVal h29, hexVal h30 * 16 + hexVal h31]
  | _ => []

/-- `UUIDConverter.uuidToBytes` (uuid.js line 86): `validate` (length and
regex), hyphen stripping plus lowercasing, length re-check, then the
hex-pair loop. -/
def uuidToBytes (u : List Nat) : Except Err (List Nat) :=
  if u.length ≠ 36 then .error .uuidFormat
  else if uuidRegexTest u then
    let hex := (u.filter (fun c => !(c == 45))).map lowerCode
    if hex.length ≠ 32 then .error .uuidFormat
    else .ok (hexPairsToBytes hex)
  else .error .uuidFormat

/-- `UUIDConverter.extractScope` (uuid.js line 134): read bytes 6-7
big-endian and remap the stored maximum 65535 to 0. -/
def extractScope (u : List Nat) : Except Err Nat :=
  match uuidToBytes u with
  | .error e => .error e
  | .ok bytes =>
    let extractedScope := (g bytes 6 <<< 8) ||| g bytes 7
    .ok (if extractedScope = 65535 then 0 else extractedScope)

/-- The pULID identifier: the three fields stored by the constructor
(pulid.js lines 40-42).  `scope` holds the *stored* scope. -/
structure pULID where
  timestamp : Int
  scope : Int
  entropy : List Nat
deriving DecidableEq, Repr

/-- The pULID constructor (pulid.js line 24): validate the timestamp,
map public scope 0 to 65535 and validate any non-zero scope, check the
entropy length, then store the fields. -/
def pULID.new (timestamp scope : Int) (entropy : List Nat) : Except Err pULID :=
  match validateTimestampE timestamp with
  | .error e => .error e
  | .ok _ =>
    let actualScope : Int := if scope = 0 then 65535 else scope
    match (if scope ≠ 0 then validateScopeE scope else .ok ()) with
    | .error e => .error e
    | .ok _ =>
      if entropy.length ≠ 8 then .error .entropyLength
      else .ok ⟨timestamp, actualScope, entropy⟩

/-- `pULID.prototype.toBytes` (pulid.js line 75): timestamp bytes, scope
bytes, entropy. -/
def pULID.toBytes (x : pULID) : Except Err (List Nat) :=
  match timestampToBytes x.timestamp with
  | .error e => .error e
  | .ok tb =>
    match scopeToBytes x.scope with
    | .error e => .error e
    | .ok sb => .ok (tb ++ sb ++ x.entropy)

/-- `pULID.prototype.toString` (pulid.js line 49). -/
def pULID.toStr (x : pULID) : Except Err (List Nat) :=
  match x.toBytes with
  | .error e => .error e
  | .ok bytes => encodeBase32 bytes

/-- `pULID.prototype.toUUID` (pulid.js line 58). -/
def pULID.toUUID (x : pULID) : Except Err (List Nat) :=
  match x.toBytes with
  | .error e => .error e
  | .ok bytes => formatAsUUID bytes

/-- `pULID.prototype.getScope` (pulid.js line 108). -/
def pULID.getScope (x : pULID) : Int := x.scope

/-- `pULID.fromBytes` (pulid.js line 208): length guard, then field
extraction through encoding.js (`bytesToTimestamp`, `bytesToScope`,
`bytesToEntropy`) feeding the constructor; every thrown error is wrapped
into a parse error. -/
def pULID.fromBytes (bytes : List Nat) : Except Err pULID :=
  if bytes.length ≠ 16 then .error .parseErr
  else
    match pULID.new (bytesToTimestamp bytes : Int) (bytesToScope bytes : Int)
        (bytesToEntropy bytes) with
    | .error _ => .error .parseErr
    | .ok x => .ok x

/-- `pULID.parse` (pulid.js line 185): length guard, `decodeBase32`,
then `fromBytes`, wrapping errors into a parse error. -/
def pULID.parse (s : List Nat) : Except Err pULID :=
  if s.length ≠ 26 then .error .parseErr
  else
    match decodeBase32 s with
    | .error _ => .error .parseErr
    | .ok bytes => pULID.fromBytes bytes

/-- `pULID.fromUUID` (pulid.js line 230): `uuidToBytes` then `fromBytes`,
wrapping errors into a parse error. -/
def pULID.fromUUID (u : List Nat) : Except Err pULID :=
  match uuidToBytes u with
  | .error _ => .error .parseErr
  | .ok bytes => pULID.fromBytes bytes

/-- The option bag accepted by `pULID.generate`. -/
structure GenOptions where
  timestamp : Option Int
  scope : Option Int
  entropy : Option (List Nat)

/-- JavaScript `x || d` on an optionally-present integer option: an absent
or zero value falls back to the default. -/
def jsOrInt (v : Option Int) (d : Int) : Int :=
  match v with
  | none => d
  | some x => if x = 0 then d else x

/-- JavaScript `x || d` on an optionally-present object option: objects
(such as a `Uint8Array`) are always truthy, so only absence falls back. -/
def jsOrObj (v : Option (List Nat)) (d : List Nat) : List Nat := v.getD d

/-- `pULID.generate` (pulid.js line 171) with the two external
collaborators made explicit: `dateNow` is the `Date.now()` reading and
`randomEntropy` the `generateEntropy()` sample. -/
def pULID.generate (options : GenOptions) (dateNow : Int) (randomEntropy : List Nat) :
    Except Err pULID :=
  pULID.new (jsOrInt options.timestamp dateNow) (jsOrInt options.scope 1)
    (jsOrObj options.entropy randomEntropy)

/-- Modelled from the spec: the canonicalized (uppercase,
confusable-normalized) form of a character of a valid Base32 string: its
decode-table value re-emitted through the alphabet. -/
def canonChar (c : Nat) : Nat := encChar (jsToInt (C2B32 c))

/-- Modelled from the spec: canonicalized form of a Base32 string. -/
def canonicalize (s : List Nat) : List Nat := s.map canonChar

/-- Modelled from the spec: JavaScript string comparison `a < b` on code
unit lists — lexicographic, with a proper prefix comparing less. -/
def jsStrLt : List Nat → List Nat → Bool
  | [], [] => false
  | [], _ :: _ => true
  | _ :: _, [] => false
  | a :: l1, b :: l2 => if a < b then true else if a = b then jsStrLt l1 l2 else false

/-- Big-endian base-32 digits of a number, most significant first
(proof helper for the monotonicity argument). -/
def digitsBE : Nat → Nat → List Nat
  | 0, _ => []
  | Nat.succ d, t => t / 32 ^ d % 32 :: digitsBE d t

/-! ### Arithmetic bridges for the bit-level operations -/

theorem orj {k : Nat} (a b : Nat) (h : b < 2 ^ k) : (a * 2 ^ k) ||| b = a * 2 ^ k + b := by
  rw [Nat.mul_comm]
  exact (Nat.mul_add_lt_is_or h a).symm

theorem orj2 (a b : Nat) (h : b < 2) : a * 2 ||| b = a * 2 + b := by
  have h2 := orj (k := 1) a b (by omega)
  norm_num at h2
  exact h2

theorem orj4 (a b : Nat) (h : b < 4) : a * 4 ||| b = a * 4 + b := by
  have h2 := orj (k := 2) a b (by omega)
  norm_num at h2
  exact h2

theorem orj8 (a b : Nat) (h : b < 8) : a * 8 ||| b = a * 8 + b := by
  have h2 := orj (k := 3) a b (by omega)
  norm_num at h2
  exact h2

theorem orj16 (a b : Nat) (h : b < 16) : a * 16 ||| b = a * 16 + b := by
  have h2 := orj (k := 4) a b (by omega)
  norm_num at h2
  exact h2

theorem orj32 (a b : Nat) (h : b < 32) : a * 32 ||| b = a * 32 + b := by
  have h2 := orj (k := 5) a b (by omega)
  norm_num at h2
  exact h2

theorem orj64 (a b : Nat) (h : b < 64) : a * 64 ||| b = a * 64 + b := by
  have h2 := orj (k := 6) a b (by omega)
  norm_num at h2
  exact h2

theorem orj128 (a b : Nat) (h : b < 128) : a * 128 ||| b = a * 128 + b := by
  have h2 := orj (k := 7) a b (by omega)
  norm_num at h2
  exact h2

theorem andMod32 (x : Nat) : x &&& 31 = x % 32 := by
  have h2 := Nat.and_pow_two_sub_one_eq_mod x 5
  norm_num at h2
  exact h2

theorem andMod8 (x : Nat) : x &&& 7 = x % 8 := by
  have h2 := Nat.and_pow_two_sub_one_eq_mod x 3
  norm_num at h2
  exact h2

theorem andMod2 (x : Nat) : x &&& 1 = x % 2 := by
  simp

theorem andMod16 (x : Nat) : x &&& 15 = x % 16 := by
  have h2 := Nat.and_pow_two_sub_one_eq_mod x 4
  norm_num at h2
  exact h2

theorem andMod4 (x : Nat) : x &&& 3 = x % 4 := by
  have h2 := Nat.and_pow_two_sub_one_eq_mod x 2
  norm_num at h2
  exact h2

theorem andMod256 (x : Nat) : x &&& 255 = x % 256 := by
  have h2 := Nat.and_pow_two_sub_one_eq_mod x 8
  norm_num at h2
  exact h2

theorem m224 : ∀ x < 256, (x &&& 224) >>> 5 = x / 32 := by decide
theorem m248 : ∀ x < 256, (x &&& 248) >>> 3 = x / 8 := by decide
theorem m192 : ∀ x < 256, (x &&& 192) >>> 6 = x / 64 := by decide
theorem m62 : ∀ x < 256, (x &&& 62) >>> 1 = x / 2 % 32 := by decide
theorem m240 : ∀ x < 256, (x &&& 240) >>> 4 = x / 16 := by decide
theorem m128 : ∀ x < 256, (x &&& 128) >>> 7 = x / 128 := by decide
theorem m124 : ∀ x < 256, (x &&& 124) >>> 2 = x / 4 % 32 := by decide

/-- Encode char shape: `((x & 7) << 2) | ((y & 192) >> 6)`. -/
theorem enc7_192 (x y : Nat) (hy : y < 256) :
    ((x &&& 7) <<< 2) ||| ((y &&& 192) >>> 6) = x % 8 * 4 + y / 64 := by
  rw [Nat.shiftLeft_eq, andMod8, m192 y hy]
  norm_num
  exact orj4 (x % 8) (y / 64) (by omega)

/-- Encode char shape: `((x & 1) << 4) | ((y & 240) >> 4)`. -/
theorem enc1_240 (x y : Nat) (hy : y < 256) :
    ((x &&& 1) <<< 4) ||| ((y &&& 240) >>> 4) = x % 2 * 16 + y / 16 := by
  rw [Nat.shiftLeft_eq, andMod2, m240 y hy]
  norm_num
  exact orj16 (x % 2) (y / 16) (by omega)

/-- Encode char shape: `((x & 15) << 1) | ((y & 128) >> 7)`. -/
theorem enc15_128 (x y : Nat) (hy : y < 256) :
    ((x &&& 15) <<< 1) ||| ((y &&& 128) >>> 7) = x % 16 * 2 + y / 128 := by
  rw [Nat.shiftLeft_eq, andMod16, m128 y hy]
  norm_num
  exact orj2 (x % 16) (y / 128) (by omega)

/-- Encode char shape: `((x & 3) << 3) | ((y & 224) >> 5)`. -/
theorem enc3_224 (x y : Nat) (hy : y < 256) :
    ((x &&& 3) <<< 3) ||| ((y &&& 224) >>> 5) = x % 4 * 8 + y / 32 := by
  rw [Nat.shiftLeft_eq, andMod4, m224 y hy]
  norm_num
  exact orj8 (x % 4) (y / 32) (by omega)

/-- Decode byte shape: `(a << 5) | b`, truncated to a byte. -/
theorem dec1 (a b : Nat) (hb : b < 32) :
    ((a <<< 5) ||| b) % 256 = a % 8 * 32 + b := by
  rw [Nat.shiftLeft_eq]
  norm_num
  rw [orj32 a b hb]
  omega

/-- Decode byte shape: `(a << 3) | (b >> 2)`, truncated to a byte. -/
theorem dec2 (a b : Nat) (ha : a < 32) (hb : b < 32) :
    ((a <<< 3) ||| (b >>> 2)) % 256 = a * 8 + b / 4 := by
  rw [Nat.shiftLeft_eq, Nat.shiftRight_eq_div_pow]
  norm_num
  rw [orj8 a (b / 4) (by omega)]
  omega

/-- Decode byte shape: `(a << 6) | (b << 1) | (c >> 4)`, truncated. -/
theorem dec3 (a b c : Nat) (hb : b < 32) (hc : c < 32) :
    ((a <<< 6) ||| (b <<< 1) ||| (c >>> 4)) % 256 = a % 4 * 64 + b * 2 + c / 16 := by
  rw [Nat.shiftLeft_eq, Nat.shiftLeft_eq, Nat.shiftRight_eq_div_pow]
  norm_num
  rw [orj64 a (b * 2) (by omega)]
  have h3 : a * 64 + b * 2 = (a * 32 + b) * 2 := by ring
  rw [h3, orj2 (a * 32 + b) (c / 16) (by omega)]
  omega

/-- Decode byte shape: `(a << 4) | (b >> 1)`, truncated to a byte. -/
theorem dec4 (a b : Nat) (hb : b < 32) :
    ((a <<< 4) ||| (b >>> 1)) % 256 = a % 16 * 16 + b / 2 := by
  rw [Nat.shiftLeft_eq, Nat.shiftRight_eq_div_pow]
  norm_num
  rw [orj16 a (b / 2) (by omega)]
  omega

/-- Decode byte shape: `(a << 7) | (b << 2) | (c >> 3)`, truncated. -/
theorem dec5 (a b c : Nat) (hb : b < 32) (hc : c < 32) :
    ((a <<< 7) ||| (b <<< 2) ||| (c >>> 3)) % 256 = a % 2 * 128 + b * 4 + c / 8 := by
  rw [Nat.shiftLeft_eq, Nat.shiftLeft_eq, Nat.shiftRight_eq_div_pow]
  norm_num
  rw [orj128 a (b * 4) (by omega)]
  have h3 : a * 128 + b * 4 = (a * 32 + b) * 4 := by ring
  rw [h3, orj4 (a * 32 + b) (c / 8) (by omega)]
  omega

/-- Scope high byte: `(n >> 8) & 0xff` for a 16-bit value. -/
theorem scopeHighByte (n : Nat) (h : n < 65536) : (n >>> 8) &&& 255 = n / 256 := by
  rw [Nat.shiftRight_eq_div_pow, andMod256]
  norm_num
  omega

/-! ### Facts about the Base32 alphabet and decode table -/

/-- The decode table inverts the alphabet on 5-bit values. -/
theorem table_encChar : ∀ v < 32, C2B32 (encChar v) = some v := by decide

/-- Alphabet characters of values below 8 are the digit codes up to 55. -/
theorem encChar_le_55 : ∀ v < 8, encChar v ≤ 55 := by decide

/-- Alphabet characters pass the decode validation. -/
theorem valid_encChar : ∀ v < 32, validB32Char (encChar v) = true := by decide

/-- The alphabet is strictly increasing in code units. -/
theorem encChar_strictMono : ∀ v < 32, ∀ w < 32, v < w → encChar v < encChar w := by decide

/-- Accepted table entries are 5-bit values. -/
theorem tableVal_lt_32 : ∀ c < 256, tableVal c ≠ 255 → tableVal c < 32 := by decide

/-- A valid character with code at most 55 decodes below 8. -/
theorem tableVal_le55_lt8 : ∀ c ≤ 55, tableVal c ≠ 255 → tableVal c < 8 := by decide

/-- A valid character decoding to 8 or above has code above 55. -/
theorem tableVal_ge8_code : ∀ c < 256, 8 ≤ tableVal c → tableVal c < 32 → 55 < c := by decide

/-- Alphabet characters are below 256 (inside the decode array). -/
theorem encChar_lt_256 : ∀ v < 32, encChar v < 256 := by decide

/-- Hex digits produced by `byteToHex` satisfy the regex digit test. -/
theorem isHex_hexChar : ∀ v < 16, isHexDigitCode (hexChar v) = true := by decide

/-- Hex digit characters are not the hyphen. -/
theorem hexChar_ne_hyphen : ∀ v < 16, (hexChar v == 45) = false := by decide

/-- Hex digit characters are already lowercase. -/
theorem lowerCode_hexChar : ∀ v < 16, lowerCode (hexChar v) = hexChar v := by decide

/-- `hexVal` inverts `hexChar` on 4-bit values. -/
theorem hexVal_hexChar : ∀ v < 16, hexVal (hexChar v) = v := by decide

/-- A stored decode-table entry certifies an in-range character. -/
theorem C2B32_some_inv (c v : Nat) (h : C2B32 c = some v) : c < 256 ∧ tableVal c = v := by
  unfold C2B32 at h
  by_cases hc : c < 256
  · rw [if_pos hc] at h
    injection h with h2
    exact ⟨hc, h2⟩
  · rw [if_neg hc] at h
    cases h

/-- Valid characters pass the decode validation loop. -/
theorem validB32Char_of (c : Nat) (hc : c < 256) (hv : tableVal c ≠ 255) :
    validB32Char c = true := by
  unfold validB32Char C2B32
  rw [if_pos hc]
  simpa using hv

/-- Reading the decode table through the JavaScript coercion. -/
theorem jsToInt_C2B32 (c : Nat) (hc : c < 256) : jsToInt (C2B32 c) = tableVal c := by
  unfold C2B32
  rw [if_pos hc]
  rfl

/-- Peel one element off a list of known positive length. -/
theorem exists_cons_of_length_succ {α : Type} (l : List α) (n : Nat) (h : l.length = n + 1) :
    ∃ a t, l = a :: t ∧ t.length = n := by
  cases l with
  | nil => simp at h
  | cons a t => exact ⟨a, t, rfl, by simpa using h⟩

/-- The two `ScopeManager.validate` variants in the repository agree on
every non-zero integer scope. -/
theorem validateScope_variants_agree (s : Int) (h : s ≠ 0) :
    validateScopeE s = validateScopeE_v2 s := by
  unfold validateScopeE validateScopeE_v2
  split_ifs <;> first | rfl | omega

/-- Successful branch of `decodeBase32`. -/
theorem decodeBase32_ok (s : List Nat) (h26 : s.length = 26)
    (hall : s.all validB32Char = true) (h0 : g s 0 ≤ 55) :
    decodeBase32 s = .ok (decodeBytes s) := by
  unfold decodeBase32
  rw [if_neg (by omega), if_pos hall, if_neg (by omega)]

set_option maxHeartbeats 1600000 in
/-- Core Base32 round trip: decoding the encoding of any 16 bytes
returns exactly those bytes. -/
theorem decode_encode16 (b0 b1 b2 b3 b4 b5 b6 b7 b8 b9 b10 b11 b12 b13 b14 b15 : Nat)
    (hb0 : b0 < 256) (hb1 : b1 < 256) (hb2 : b2 < 256) (hb3 : b3 < 256) (hb4 : b4 < 256) (hb5 : b5 < 256) (hb6 : b6 < 256) (hb7 : b7 < 256) (hb8 : b8 < 256) (hb9 : b9 < 256) (hb10 : b10 < 256) (hb11 : b11 < 256) (hb12 : b12 < 256) (hb13 : b13 < 256) (hb14 : b14 < 256) (hb15 : b15 < 256) :
    decodeBase32 (b32chars [b0, b1, b2, b3, b4, b5, b6, b7, b8, b9, b10, b11, b12, b13, b14, b15]) = .ok [b0, b1, b2, b3, b4, b5, b6, b7, b8, b9, b10, b11, b12, b13, b14, b15] := by
  simp only [b32chars]
  have q0 : b0 / 32 < 32 := by omega
  have q1 : b0 % 32 < 32 := by omega
  have q2 : b1 / 8 < 32 := by omega
  have q3 : b1 % 8 * 4 + b2 / 64 < 32 := by omega
  have q4 : b2 / 2 % 32 < 32 := by omega
  have q5 : b2 % 2 * 16 + b3 / 16 < 32 := by omega
  have q6 : b3 % 16 * 2 + b4 / 128 < 32 := by omega
  have q7 : b4 / 4 % 32 < 32 := by omega
  have q8 : b4 % 4 * 8 + b5 / 32 < 32 := by omega
  have q9 : b5 % 32 < 32 := by omega
  have q10 : b6 / 8 < 32 := by omega
  have q11 : b6 % 8 * 4 + b7 / 64 < 32 := by omega
  have q12 : b7 / 2 % 32 < 32 := by omega
  have q13 : b7 % 2 * 16 + b8 / 16 < 32 := by omega
  have q14 : b8 % 16 * 2 + b9 / 128 < 32 := by omega
  have q15 : b9 / 4 % 32 < 32 := by omega
  have q16 : b9 % 4 * 8 + b10 / 32 < 32 := by omega
  have q17 : b10 % 32 < 32 := by omega
  have q18 : b11 / 8 < 32 := by omega
  have q19 : b11 % 8 * 4 + b12 / 64 < 32 := by omega
  have q20 : b12 / 2 % 32 < 32 := by omega
  have q21 : b12 % 2 * 16 + b13 / 16 < 32 := by omega
  have q22 : b13 % 16 * 2 + b14 / 128 < 32 := by omega
  have q23 : b14 / 4 % 32 < 32 := by omega
  have q24 : b14 % 4 * 8 + b15 / 32 < 32 := by omega
  have q25 : b15 % 32 < 32 := by omega
  rw [m224 b0 hb0, andMod32 b0, m248 b1 hb1, enc7_192 b1 b2 hb2, m62 b2 hb2, enc1_240 b2 b3 hb3, enc15_128 b3 b4 hb4, m124 b4 hb4, enc3_224 b4 b5 hb5, andMod32 b5, m248 b6 hb6, enc7_192 b6 b7 hb7, m62 b7 hb7, enc1_240 b7 b8 hb8, enc15_128 b8 b9 hb9, m124 b9 hb9, enc3_224 b9 b10 hb10, andMod32 b10, m248 b11 hb11, enc7_192 b11 b12 hb12, m62 b12 hb12, enc1_240 b12 b13 hb13, enc15_128 b13 b14 hb14, m124 b14 hb14, enc3_224 b14 b15 hb15, andMod32 b15]
  have tb0 : jsToInt (C2B32 (encChar (b0 / 32))) = b0 / 32 := by
    rw [table_encChar _ q0]
    rfl
  have tb1 : jsToInt (C2B32 (encChar (b0 % 32))) = b0 % 32 := by
    rw [table_encChar _ q1]
    rfl
  have tb2 : jsToInt (C2B32 (encChar (b1 / 8))) = b1 / 8 := by
    rw [table_encChar _ q2]
    rfl
  have tb3 : jsToInt (C2B32 (encChar (b1 % 8 * 4 + b2 / 64))) = b1 % 8 * 4 + b2 / 64 := by
    rw [table_encChar _ q3]
    rfl
  have tb4 : jsToInt (C2B32 (encChar (b2 / 2 % 32))) = b2 / 2 % 32 := by
    rw [table_encChar _ q4]
    rfl
  have tb5 : jsToInt (C2B32 (encChar (b2 % 2 * 16 + b3 / 16))) = b2 % 2 * 16 + b3 / 16 := by
    rw [table_encChar _ q5]
    rfl
  have tb6 : jsToInt (C2B32 (encChar (b3 % 16 * 2 + b4 / 128))) = b3 % 16 * 2 + b4 / 128 := by
    rw [table_encChar _ q6]
    rfl
  have tb7 : jsToInt (C2B32 (encChar (b4 / 4 % 32))) = b4 / 4 % 32 := by
    rw [table_encChar _ q7]
    rfl
  have tb8 : jsToInt (C2B32 (encChar (b4 % 4 * 8 + b5 / 32))) = b4 % 4 * 8 + b5 / 32 := by
    rw [table_encChar _ q8]
    rfl
  have tb9 : jsToInt (C2B32 (encChar (b5 % 32))) = b5 % 32 := by
    rw [table_encChar _ q9]
    rfl
  have tb10 : jsToInt (C2B32 (encChar (b6 / 8))) = b6 / 8 := by
    rw [table_encChar _ q10]
    rfl
  have tb11 : jsToInt (C2B32 (encChar (b6 % 8 * 4 + b7 / 64))) = b6 % 8 * 4 + b7 / 64 := by
    rw [table_encChar _ q11]
    rfl
  have tb12 : jsToInt (C2B32 (encChar (b7 / 2 % 32))) = b7 / 2 % 32 := by
    rw [table_encChar _ q12]
    rfl
  have tb13 : jsToInt (C2B32 (encChar (b7 % 2 * 16 + b8 / 16))) = b7 % 2 * 16 + b8 / 16 := by
    rw [table_encChar _ q13]
    rfl
  have tb14 : jsToInt (C2B32 (encChar (b8 % 16 * 2 + b9 / 128))) = b8 % 16 * 2 + b9 / 128 := by
    rw [table_encChar _ q14]
    rfl
  have tb15 : jsToInt (C2B32 (encChar (b9 / 4 % 32))) = b9 / 4 % 32 := by
    rw [table_encChar _ q15]
    rfl
  have tb16 : jsToInt (C2B32 (encChar (b9 % 4 * 8 + b10 / 32))) = b9 % 4 * 8 + b10 / 32 := by
    rw [table_encChar _ q16]
    rfl
  have tb17 : jsToInt (C2B32 (encChar (b10 % 32))) = b10 % 32 := by
    rw [table_encChar _ q17]
    rfl
  have tb18 : jsToInt (C2B32 (encChar (b11 / 8))) = b11 / 8 := by
    rw [table_encChar _ q18]
    rfl
  have tb19 : jsToInt (C2B32 (encChar (b11 % 8 * 4 + b12 / 64))) = b11 % 8 * 4 + b12 / 64 := by
    rw [table_encChar _ q19]
    rfl
  have tb20 : jsToInt (C2B32 (encChar (b12 / 2 % 32))) = b12 / 2 % 32 := by
    rw [table_encChar _ q20]
    rfl
  have tb21 : jsToInt (C2B32 (encChar (b12 % 2 * 16 + b13 / 16))) = b12 % 2 * 16 + b13 / 16 := by
    rw [table_encChar _ q21]
    rfl
  have tb22 : jsToInt (C2B32 (encChar (b13 % 16 * 2 + b14 / 128))) = b13 % 16 * 2 + b14 / 128 := by
    rw [table_encChar _ q22]
    rfl
  have tb23 : jsToInt (C2B32 (encChar (b14 / 4 % 32))) = b14 / 4 % 32 := by
    rw [table_encChar _ q23]
    rfl
  have tb24 : jsToInt (C2B32 (encChar (b14 % 4 * 8 + b15 / 32))) = b14 % 4 * 8 + b15 / 32 := by
    rw [table_encChar _ q24]
    rfl
  have tb25 : jsToInt (C2B32 (encChar (b15 % 32))) = b15 % 32 := by
    rw [table_encChar _ q25]
    rfl
  have va0 : validB32Char (encChar (b0 / 32)) = true := valid_encChar _ q0
  have va1 : validB32Char (encChar (b0 % 32)) = true := valid_encChar _ q1
  have va2 : validB32Char (encChar (b1 / 8)) = true := valid_encChar _ q2
  have va3 : validB32Char (encChar (b1 % 8 * 4 + b2 / 64)) = true := valid_encChar _ q3
  have va4 : validB32Char (encChar (b2 / 2 % 32)) = true := valid_encChar _ q4
  have va5 : validB32Char (encChar (b2 % 2 * 16 + b3 / 16)) = true := valid_encChar _ q5
  have va6 : validB32Char (encChar (b3 % 16 * 2 + b4 / 128)) = true := valid_encChar _ q6
  have va7 : validB32Char (encChar (b4 / 4 % 32)) = true := valid_encChar _ q7
  have va8 : validB32Char (encChar (b4 % 4 * 8 + b5 / 32)) = true := valid_encChar _ q8
  have va9 : validB32Char (encChar (b5 % 32)) = true := valid_encChar _ q9
  have va10 : validB32Char (encChar (b6 / 8)) = true := valid_encChar _ q10
  have va11 : validB32Char (encChar (b6 % 8 * 4 + b7 / 64)) = true := valid_encChar _ q11
  have va12 : validB32Char (encChar (b7 / 2 % 32)) = true := valid_encChar _ q12
  have va13 : validB32Char (encChar (b7 % 2 * 16 + b8 / 16)) = true := valid_encChar _ q13
  have va14 : validB32Char (encChar (b8 % 16 * 2 + b9 / 128)) = true := valid_encChar _ q14
  have va15 : validB32Char (encChar (b9 / 4 % 32)) = true := valid_encChar _ q15
  have va16 : validB32Char (encChar (b9 % 4 * 8 + b10 / 32)) = true := valid_encChar _ q16
  have va17 : validB32Char (encChar (b10 % 32)) = true := valid_encChar _ q17
  have va18 : validB32Char (encChar (b11 / 8)) = true := valid_encChar _ q18
  have va19 : validB32Char (encChar (b11 % 8 * 4 + b12 / 64)) = true := valid_encChar _ q19
  have va20 : validB32Char (encChar (b12 / 2 % 32)) = true := valid_encChar _ q20
  have va21 : validB32Char (encChar (b12 % 2 * 16 + b13 / 16)) = true := valid_encChar _ q21
  have va22 : validB32Char (encChar (b13 % 16 * 2 + b14 / 128)) = true := valid_encChar _ q22
  have va23 : validB32Char (encChar (b14 / 4 % 32)) = true := valid_encChar _ q23
  have va24 : validB32Char (encChar (b14 % 4 * 8 + b15 / 32)) = true := valid_encChar _ q24
  have va25 : validB32Char (encChar (b15 % 32)) = true := valid_encChar _ q25
  rw [decodeBase32_ok _ (by simp) (by simp only [List.all_cons, List.all_nil, va0, va1, va2, va3, va4, va5, va6, va7, va8, va9, va10, va11, va12, va13, va14, va15, va16, va17, va18, va19, va20, va21, va22, va23, va24, va25, Bool.true_and]) ?hle]
  case hle =>
    have h55 := encChar_le_55 (b0 / 32) (by omega)
    simpa [g] using h55
  simp only [decodeBytes]
  rw [tb0, tb1, tb2, tb3, tb4, tb5, tb6, tb7, tb8, tb9, tb10, tb11, tb12, tb13, tb14, tb15, tb16, tb17, tb18, tb19, tb20, tb21, tb22, tb23, tb24, tb25]
  rw [dec1 _ _ q1, dec2 _ _ q2 q3, dec3 _ _ _ q4 q5, dec4 _ _ q6, dec5 _ _ _ q7 q8, dec1 _ _ q9, dec2 _ _ q10 q11, dec3 _ _ _ q12 q13, dec4 _ _ q14, dec5 _ _ _ q15 q16, dec1 _ _ q17, dec2 _ _ q18 q19, dec3 _ _ _ q20 q21, dec4 _ _ q22, dec5 _ _ _ q23 q24, dec1 _ _ q25]
  clear tb0 tb1 tb2 tb3 tb4 tb5 tb6 tb7 tb8 tb9 tb10 tb11 tb12 tb13 tb14 tb15 tb16 tb17 tb18 tb19 tb20 tb21 tb22 tb23 tb24 tb25 va0 va1 va2 va3 va4 va5 va6 va7 va8 va9 va10 va11 va12 va13 va14 va15 va16 va17 va18 va19 va20 va21 va22 va23 va24 va25 q0 q1 q2 q3 q4 q5 q6 q7 q8 q9 q10 q11 q12 q13 q14 q15 q16 q17 q18 q19 q20 q21 q22 q23 q24 q25
  simp only [Except.ok.injEq, List.cons.injEq, and_true]
  refine ⟨?_, ?_, ?_, ?_, ?_, ?_, ?_, ?_, ?_, ?_, ?_, ?_, ?_, ?_, ?_, ?_⟩ <;> omega


theorem orj256 (a b : Nat) (h : b < 256) : a * 256 ||| b = a * 256 + b := by
  have h2 := orj (k := 8) a b (by omega)
  norm_num at h2
  exact h2

/-- `tsLoop 6` in closed form. -/
theorem tsLoop_six (n : Nat) :
    tsLoop 6 n = [n / 256 / 256 / 256 / 256 / 256 % 256, n / 256 / 256 / 256 / 256 % 256,
      n / 256 / 256 / 256 % 256, n / 256 / 256 % 256, n / 256 % 256, n % 256] := rfl

/-- A 16-byte buffer encodes to 26 characters. -/
theorem b32chars_length (l : List Nat) (h16 : l.length = 16) : (b32chars l).length = 26 := by
  obtain ⟨b0, l1, rfl, hl1⟩ := exists_cons_of_length_succ l 15 h16
  obtain ⟨b1, l2, rfl, hl2⟩ := exists_cons_of_length_succ l1 14 hl1
  obtain ⟨b2, l3, rfl, hl3⟩ := exists_cons_of_length_succ l2 13 hl2
  obtain ⟨b3, l4, rfl, hl4⟩ := exists_cons_of_length_succ l3 12 hl3
  obtain ⟨b4, l5, rfl, hl5⟩ := exists_cons_of_length_succ l4 11 hl4
  obtain ⟨b5, l6, rfl, hl6⟩ := exists_cons_of_length_succ l5 10 hl5
  obtain ⟨b6, l7, rfl, hl7⟩ := exists_cons_of_length_succ l6 9 hl6
  obtain ⟨b7, l8, rfl, hl8⟩ := exists_cons_of_length_succ l7 8 hl7
  obtain ⟨b8, l9, rfl, hl9⟩ := exists_cons_of_length_succ l8 7 hl8
  obtain ⟨b9, l10, rfl, hl10⟩ := exists_cons_of_length_succ l9 6 hl9
  obtain ⟨b10, l11, rfl, hl11⟩ := exists_cons_of_length_succ l10 5 hl10
  obtain ⟨b11, l12, rfl, hl12⟩ := exists_cons_of_length_succ l11 4 hl11
  obtain ⟨b12, l13, rfl, hl13⟩ := exists_cons_of_length_succ l12 3 hl12
  obtain ⟨b13, l14, rfl, hl14⟩ := exists_cons_of_length_succ l13 2 hl13
  obtain ⟨b14, l15, rfl, hl15⟩ := exists_cons_of_length_succ l14 1 hl14
  obtain ⟨b15, l16, rfl, hl16⟩ := exists_cons_of_length_succ l15 0 hl15
  rw [List.length_eq_zero.mp hl16]
  rfl

/-- List-level Base32 round trip. -/
theorem decode_encode_list (l : List Nat) (h16 : l.length = 16) (hb : ∀ x ∈ l, x < 256) :
    decodeBase32 (b32chars l) = .ok l := by
  obtain ⟨b0, l1, rfl, hl1⟩ := exists_cons_of_length_succ l 15 h16
  obtain ⟨b1, l2, rfl, hl2⟩ := exists_cons_of_length_succ l1 14 hl1
  obtain ⟨b2, l3, rfl, hl3⟩ := exists_cons_of_length_succ l2 13 hl2
  obtain ⟨b3, l4, rfl, hl4⟩ := exists_cons_of_length_succ l3 12 hl3
  obtain ⟨b4, l5, rfl, hl5⟩ := exists_cons_of_length_succ l4 11 hl4
  obtain ⟨b5, l6, rfl, hl6⟩ := exists_cons_of_length_succ l5 10 hl5
  obtain ⟨b6, l7, rfl, hl7⟩ := exists_cons_of_length_succ l6 9 hl6
  obtain ⟨b7, l8, rfl, hl8⟩ := exists_cons_of_length_succ l7 8 hl7
  obtain ⟨b8, l9, rfl, hl9⟩ := exists_cons_of_length_succ l8 7 hl8
  obtain ⟨b9, l10, rfl, hl10⟩ := exists_cons_of_length_succ l9 6 hl9
  obtain ⟨b10, l11, rfl, hl11⟩ := exists_cons_of_length_succ l10 5 hl10
  obtain ⟨b11, l12, rfl, hl12⟩ := exists_cons_of_length_succ l11 4 hl11
  obtain ⟨b12, l13, rfl, hl13⟩ := exists_cons_of_length_succ l12 3 hl12
  obtain ⟨b13, l14, rfl, hl14⟩ := exists_cons_of_length_succ l13 2 hl13
  obtain ⟨b14, l15, rfl, hl15⟩ := exists_cons_of_length_succ l14 1 hl14
  obtain ⟨b15, l16, rfl, hl16⟩ := exists_cons_of_length_succ l15 0 hl15
  rw [List.length_eq_zero.mp hl16]
  exact decode_encode16 b0 b1 b2 b3 b4 b5 b6 b7 b8 b9 b10 b11 b12 b13 b14 b15
    (hb b0 (by simp)) (hb b1 (by simp)) (hb b2 (by simp)) (hb b3 (by simp))
    (hb b4 (by simp)) (hb b5 (by simp)) (hb b6 (by simp)) (hb b7 (by simp))
    (hb b8 (by simp)) (hb b9 (by simp)) (hb b10 (by simp)) (hb b11 (by simp))
    (hb b12 (by simp)) (hb b13 (by simp)) (hb b14 (by simp)) (hb b15 (by simp))

/-- Filter step keeping a non-hyphen character. -/
theorem filter_keep (c : Nat) (l : List Nat) (h : (c == 45) = false) :
    (c :: l).filter (fun x => !(x == 45)) = c :: l.filter (fun x => !(x == 45)) := by
  rw [List.filter_cons_of_pos]
  simp [h]

/-- Filter step dropping a hyphen. -/
theorem filter_drop45 (l : List Nat) :
    (45 :: l).filter (fun x => !(x == 45)) = l.filter (fun x => !(x == 45)) := by
  rw [List.filter_cons_of_neg]
  simp

set_option maxHeartbeats 1600000 in
/-- Core UUID round trip: `uuidToBytes` inverts `formatAsUUID` on any
16 bytes. -/
theorem uuid_decode_encode16 (b0 b1 b2 b3 b4 b5 b6 b7 b8 b9 b10 b11 b12 b13 b14 b15 : Nat)
    (hb0 : b0 < 256) (hb1 : b1 < 256) (hb2 : b2 < 256) (hb3 : b3 < 256) (hb4 : b4 < 256) (hb5 : b5 < 256) (hb6 : b6 < 256) (hb7 : b7 < 256) (hb8 : b8 < 256) (hb9 : b9 < 256) (hb10 : b10 < 256) (hb11 : b11 < 256) (hb12 : b12 < 256) (hb13 : b13 < 256) (hb14 : b14 < 256) (hb15 : b15 < 256) :
    formatAsUUID [b0, b1, b2, b3, b4, b5, b6, b7, b8, b9, b10, b11, b12, b13, b14, b15] =
      .ok [hexChar (b0 / 16), hexChar (b0 % 16), hexChar (b1 / 16), hexChar (b1 % 16), hexChar (b2 / 16), hexChar (b2 % 16), hexChar (b3 / 16), hexChar (b3 % 16), 45, hexChar (b4 / 16), hexChar (b4 % 16), hexChar (b5 / 16), hexChar (b5 % 16), 45, hexChar (b6 / 16), hexChar (b6 % 16), hexChar (b7 / 16), hexChar (b7 % 16), 45, hexChar (b8 / 16), hexChar (b8 % 16), hexChar (b9 / 16), hexChar (b9 % 16), 45, hexChar (b10 / 16), hexChar (b10 % 16), hexChar (b11 / 16), hexChar (b11 % 16), hexChar (b12 / 16), hexChar (b12 % 16), hexChar (b13 / 16), hexChar (b13 % 16), hexChar (b14 / 16), hexChar (b14 % 16), hexChar (b15 / 16), hexChar (b15 % 16)] ∧
    uuidToBytes [hexChar (b0 / 16), hexChar (b0 % 16), hexChar (b1 / 16), hexChar (b1 % 16), hexChar (b2 / 16), hexChar (b2 % 16), hexChar (b3 / 16), hexChar (b3 % 16), 45, hexChar (b4 / 16), hexChar (b4 % 16), hexChar (b5 / 16), hexChar (b5 % 16), 45, hexChar (b6 / 16), hexChar (b6 % 16), hexChar (b7 / 16), hexChar (b7 % 16), 45, hexChar (b8 / 16), hexChar (b8 % 16), hexChar (b9 / 16), hexChar (b9 % 16), 45, hexChar (b10 / 16), hexChar (b10 % 16), hexChar (b11 / 16), hexChar (b11 % 16), hexChar (b12 / 16), hexChar (b12 % 16), hexChar (b13 / 16), hexChar (b13 % 16), hexChar (b14 / 16), hexChar (b14 % 16), hexChar (b15 / 16), hexChar (b15 % 16)] = .ok [b0, b1, b2, b3, b4, b5, b6, b7, b8, b9, b10, b11, b12, b13, b14, b15] := by
  refine ⟨rfl, ?_⟩
  have ih0a : isHexDigitCode (hexChar (b0 / 16)) = true := isHex_hexChar _ (by omega)
  have ih0b : isHexDigitCode (hexChar (b0 % 16)) = true := isHex_hexChar _ (by omega)
  have ih1a : isHexDigitCode (hexChar (b1 / 16)) = true := isHex_hexChar _ (by omega)
  have ih1b : isHexDigitCode (hexChar (b1 % 16)) = true := isHex_hexChar _ (by omega)
  have ih2a : isHexDigitCode (hexChar (b2 / 16)) = true := isHex_hexChar _ (by omega)
  have ih2b : isHexDigitCode (hexChar (b2 % 16)) = true := isHex_hexChar _ (by omega)
  have ih3a : isHexDigitCode (hexChar (b3 / 16)) = true := isHex_hexChar _ (by omega)
  have ih3b : isHexDigitCode (hexChar (b3 % 16)) = true := isHex_hexChar _ (by omega)
  have ih4a : isHexDigitCode (hexChar (b4 / 16)) = true := isHex_hexChar _ (by omega)
  have ih4b : isHexDigitCode (hexChar (b4 % 16)) = true := isHex_hexChar _ (by omega)
  have ih5a : isHexDigitCode (hexChar (b5 / 16)) = true := isHex_hexChar _ (by omega)
  have ih5b : isHexDigitCode (hexChar (b5 % 16)) = true := isHex_hexChar _ (by omega)
  have ih6a : isHexDigitCode (hexChar (b6 / 16)) = true := isHex_hexChar _ (by omega)
  have ih6b : isHexDigitCode (hexChar (b6 % 16)) = true := isHex_hexChar _ (by omega)
  have ih7a : isHexDigitCode (hexChar (b7 / 16)) = true := isHex_hexChar _ (by omega)
  have ih7b : isHexDigitCode (hexChar (b7 % 16)) = true := isHex_hexChar _ (by omega)
  have ih8a : isHexDigitCode (hexChar (b8 / 16)) = true := isHex_hexChar _ (by omega)
  have ih8b : isHexDigitCode (hexChar (b8 % 16)) = true := isHex_hexChar _ (by omega)
  have ih9a : isHexDigitCode (hexChar (b9 / 16)) = true := isHex_hexChar _ (by omega)
  have ih9b : isHexDigitCode (hexChar (b9 % 16)) = true := isHex_hexChar _ (by omega)
  have ih10a : isHexDigitCode (hexChar (b10 / 16)) = true := isHex_hexChar _ (by omega)
  have ih10b : isHexDigitCode (hexChar (b10 % 16)) = true := isHex_hexChar _ (by omega)
  have ih11a : isHexDigitCode (hexChar (b11 / 16)) = true := isHex_hexChar _ (by omega)
  have ih11b : isHexDigitCode (hexChar (b11 % 16)) = true := isHex_hexChar _ (by omega)
  have ih12a : isHexDigitCode (hexChar (b12 / 16)) = true := isHex_hexChar _ (by omega)
  have ih12b : isHexDigitCode (hexChar (b12 % 16)) = true := isHex_hexChar _ (by omega)
  have ih13a : isHexDigitCode (hexChar (b13 / 16)) = true := isHex_hexChar _ (by omega)
  have ih13b : isHexDigitCode (hexChar (b13 % 16)) = true := isHex_hexChar _ (by omega)
  have ih14a : isHexDigitCode (hexChar (b14 / 16)) = true := isHex_hexChar _ (by omega)
  have ih14b : isHexDigitCode (hexChar (b14 % 16)) = true := isHex_hexChar _ (by omega)
  have ih15a : isHexDigitCode (hexChar (b15 / 16)) = true := isHex_hexChar _ (by omega)
  have ih15b : isHexDigitCode (hexChar (b15 % 16)) = true := isHex_hexChar _ (by omega)
  have ne0a : (hexChar (b0 / 16) == 45) = false := hexChar_ne_hyphen _ (by omega)
  have ne0b : (hexChar (b0 % 16) == 45) = false := hexChar_ne_hyphen _ (by omega)
  have ne1a : (hexChar (b1 / 16) == 45) = false := hexChar_ne_hyphen _ (by omega)
  have ne1b : (hexChar (b1 % 16) == 45) = false := hexChar_ne_hyphen _ (by omega)
  have ne2a : (hexChar (b2 / 16) == 45) = false := hexChar_ne_hyphen _ (by omega)
  have ne2b : (hexChar (b2 % 16) == 45) = false := hexChar_ne_hyphen _ (by omega)
  have ne3a : (hexChar (b3 / 16) == 45) = false := hexChar_ne_hyphen _ (by omega)
  have ne3b : (hexChar (b3 % 16) == 45) = false := hexChar_ne_hyphen _ (by omega)
  have ne4a : (hexChar (b4 / 16) == 45) = false := hexChar_ne_hyphen _ (by omega)
  have ne4b : (hexChar (b4 % 16) == 45) = false := hexChar_ne_hyphen _ (by omega)
  have ne5a : (hexChar (b5 / 16) == 45) = false := hexChar_ne_hyphen _ (by omega)
  have ne5b : (hexChar (b5 % 16) == 45) = false := hexChar_ne_hyphen _ (by omega)
  have ne6a : (hexChar (b6 / 16) == 45) = false := hexChar_ne_hyphen _ (by omega)
  have ne6b : (hexChar (b6 % 16) == 45) = false := hexChar_ne_hyphen _ (by omega)
  have ne7a : (hexChar (b7 / 16) == 45) = false := hexChar_ne_hyphen _ (by omega)
  have ne7b : (hexChar (b7 % 16) == 45) = false := hexChar_ne_hyphen _ (by omega)
  have ne8a : (hexChar (b8 / 16) == 45) = false := hexChar_ne_hyphen _ (by omega)
  have ne8b : (hexChar (b8 % 16) == 45) = false := hexChar_ne_hyphen _ (by omega)
  have ne9a : (hexChar (b9 / 16) == 45) = false := hexChar_ne_hyphen _ (by omega)
  have ne9b : (hexChar (b9 % 16) == 45) = false := hexChar_ne_hyphen _ (by omega)
  have ne10a : (hexChar (b10 / 16) == 45) = false := hexChar_ne_hyphen _ (by omega)
  have ne10b : (hexChar (b10 % 16) == 45) = false := hexChar_ne_hyphen _ (by omega)
  have ne11a : (hexChar (b11 / 16) == 45) = false := hexChar_ne_hyphen _ (by omega)
  have ne11b : (hexChar (b11 % 16) == 45) = false := hexChar_ne_hyphen _ (by omega)
  have ne12a : (hexChar (b12 / 16) == 45) = false := hexChar_ne_hyphen _ (by omega)
  have ne12b : (hexChar (b12 % 16) == 45) = false := hexChar_ne_hyphen _ (by omega)
  have ne13a : (hexChar (b13 / 16) == 45) = false := hexChar_ne_hyphen _ (by omega)
  have ne13b : (hexChar (b13 % 16) == 45) = false := hexChar_ne_hyphen _ (by omega)
  have ne14a : (hexChar (b14 / 16) == 45) = false := hexChar_ne_hyphen _ (by omega)
  have ne14b : (hexChar (b14 % 16) == 45) = false := hexChar_ne_hyphen _ (by omega)
  have ne15a : (hexChar (b15 / 16) == 45) = false := hexChar_ne_hyphen _ (by omega)
  have ne15b : (hexChar (b15 % 16) == 45) = false := hexChar_ne_hyphen _ (by omega)
  have lc0a : lowerCode (hexChar (b0 / 16)) = hexChar (b0 / 16) := lowerCode_hexChar _ (by omega)
  have lc0b : lowerCode (hexChar (b0 % 16)) = hexChar (b0 % 16) := lowerCode_hexChar _ (by omega)
  have lc1a : lowerCode (hexChar (b1 / 16)) = hexChar (b1 / 16) := lowerCode_hexChar _ (by omega)
  have lc1b : lowerCode (hexChar (b1 % 16)) = hexChar (b1 % 16) := lowerCode_hexChar _ (by omega)
  have lc2a : lowerCode (hexChar (b2 / 16)) = hexChar (b2 / 16) := lowerCode_hexChar _ (by omega)
  have lc2b : lowerCode (hexChar (b2 % 16)) = hexChar (b2 % 16) := lowerCode_hexChar _ (by omega)
  have lc3a : lowerCode (hexChar (b3 / 16)) = hexChar (b3 / 16) := lowerCode_hexChar _ (by omega)
  have lc3b : lowerCode (hexChar (b3 % 16)) = hexChar (b3 % 16) := lowerCode_hexChar _ (by omega)
  have lc4a : lowerCode (hexChar (b4 / 16)) = hexChar (b4 / 16) := lowerCode_hexChar _ (by omega)
  have lc4b : lowerCode (hexChar (b4 % 16)) = hexChar (b4 % 16) := lowerCode_hexChar _ (by omega)
  have lc5a : lowerCode (hexChar (b5 / 16)) = hexChar (b5 / 16) := lowerCode_hexChar _ (by omega)
  have lc5b : lowerCode (hexChar (b5 % 16)) = hexChar (b5 % 16) := lowerCode_hexChar _ (by omega)
  have lc6a : lowerCode (hexChar (b6 / 16)) = hexChar (b6 / 16) := lowerCode_hexChar _ (by omega)
  have lc6b : lowerCode (hexChar (b6 % 16)) = hexChar (b6 % 16) := lowerCode_hexChar _ (by omega)
  have lc7a : lowerCode (hexChar (b7 / 16)) = hexChar (b7 / 16) := lowerCode_hexChar _ (by omega)
  have lc7b : lowerCode (hexChar (b7 % 16)) = hexChar (b7 % 16) := lowerCode_hexChar _ (by omega)
  have lc8a : lowerCode (hexChar (b8 / 16)) = hexChar (b8 / 16) := lowerCode_hexChar _ (by omega)
  have lc8b : lowerCode (hexChar (b8 % 16)) = hexChar (b8 % 16) := lowerCode_hexChar _ (by omega)
  have lc9a : lowerCode (hexChar (b9 / 16)) = hexChar (b9 / 16) := lowerCode_hexChar _ (by omega)
  have lc9b : lowerCode (hexChar (b9 % 16)) = hexChar (b9 % 16) := lowerCode_hexChar _ (by omega)
  have lc10a : lowerCode (hexChar (b10 / 16)) = hexChar (b10 / 16) := lowerCode_hexChar _ (by omega)
  have lc10b : lowerCode (hexChar (b10 % 16)) = hexChar (b10 % 16) := lowerCode_hexChar _ (by omega)
  have lc11a : lowerCode (hexChar (b11 / 16)) = hexChar (b11 / 16) := lowerCode_hexChar _ (by omega)
  have lc11b : lowerCode (hexChar (b11 % 16)) = hexChar (b11 % 16) := lowerCode_hexChar _ (by omega)
  have lc12a : lowerCode (hexChar (b12 / 16)) = hexChar (b12 / 16) := lowerCode_hexChar _ (by omega)
  have lc12b : lowerCode (hexChar (b12 % 16)) = hexChar (b12 % 16) := lowerCode_hexChar _ (by omega)
  have lc13a : lowerCode (hexChar (b13 / 16)) = hexChar (b13 / 16) := lowerCode_hexChar _ (by omega)
  have lc13b : lowerCode (hexChar (b13 % 16)) = hexChar (b13 % 16) := lowerCode_hexChar _ (by omega)
  have lc14a : lowerCode (hexChar (b14 / 16)) = hexChar (b14 / 16) := lowerCode_hexChar _ (by omega)
  have lc14b : lowerCode (hexChar (b14 % 16)) = hexChar (b14 % 16) := lowerCode_hexChar _ (by omega)
  have lc15a : lowerCode (hexChar (b15 / 16)) = hexChar (b15 / 16) := lowerCode_hexChar _ (by omega)
  have lc15b : lowerCode (hexChar (b15 % 16)) = hexChar (b15 % 16) := lowerCode_hexChar _ (by omega)
  have hv0a : hexVal (hexChar (b0 / 16)) = b0 / 16 := hexVal_hexChar _ (by omega)
  have hv0b : hexVal (hexChar (b0 % 16)) = b0 % 16 := hexVal_hexChar _ (by omega)
  have hv1a : hexVal (hexChar (b1 / 16)) = b1 / 16 := hexVal_hexChar _ (by omega)
  have hv1b : hexVal (hexChar (b1 % 16)) = b1 % 16 := hexVal_hexChar _ (by omega)
  have hv2a : hexVal (hexChar (b2 / 16)) = b2 / 16 := hexVal_hexChar _ (by omega)
  have hv2b : hexVal (hexChar (b2 % 16)) = b2 % 16 := hexVal_hexChar _ (by omega)
  have hv3a : hexVal (hexChar (b3 / 16)) = b3 / 16 := hexVal_hexChar _ (by omega)
  have hv3b : hexVal (hexChar (b3 % 16)) = b3 % 16 := hexVal_hexChar _ (by omega)
  have hv4a : hexVal (hexChar (b4 / 16)) = b4 / 16 := hexVal_hexChar _ (by omega)
  have hv4b : hexVal (hexChar (b4 % 16)) = b4 % 16 := hexVal_hexChar _ (by omega)
  have hv5a : hexVal (hexChar (b5 / 16)) = b5 / 16 := hexVal_hexChar _ (by omega)
  have hv5b : hexVal (hexChar (b5 % 16)) = b5 % 16 := hexVal_hexChar _ (by omega)
  have hv6a : hexVal (hexChar (b6 / 16)) = b6 / 16 := hexVal_hexChar _ (by omega)
  have hv6b : hexVal (hexChar (b6 % 16)) = b6 % 16 := hexVal_hexChar _ (by omega)
  have hv7a : hexVal (hexChar (b7 / 16)) = b7 / 16 := hexVal_hexChar _ (by omega)
  have hv7b : hexVal (hexChar (b7 % 16)) = b7 % 16 := hexVal_hexChar _ (by omega)
  have hv8a : hexVal (hexChar (b8 / 16)) = b8 / 16 := hexVal_hexChar _ (by omega)
  have hv8b : hexVal (hexChar (b8 % 16)) = b8 % 16 := hexVal_hexChar _ (by omega)
  have hv9a : hexVal (hexChar (b9 / 16)) = b9 / 16 := hexVal_hexChar _ (by omega)
  have hv9b : hexVal (hexChar (b9 % 16)) = b9 % 16 := hexVal_hexChar _ (by omega)
  have hv10a : hexVal (hexChar (b10 / 16)) = b10 / 16 := hexVal_hexChar _ (by omega)
  have hv10b : hexVal (hexChar (b10 % 16)) = b10 % 16 := hexVal_hexChar _ (by omega)
  have hv11a : hexVal (hexChar (b11 / 16)) = b11 / 16 := hexVal_hexChar _ (by omega)
  have hv11b : hexVal (hexChar (b11 % 16)) = b11 % 16 := hexVal_hexChar _ (by omega)
  have hv12a : hexVal (hexChar (b12 / 16)) = b12 / 16 := hexVal_hexChar _ (by omega)
  have hv12b : hexVal (hexChar (b12 % 16)) = b12 % 16 := hexVal_hexChar _ (by omega)
  have hv13a : hexVal (hexChar (b13 / 16)) = b13 / 16 := hexVal_hexChar _ (by omega)
  have hv13b : hexVal (hexChar (b13 % 16)) = b13 % 16 := hexVal_hexChar _ (by omega)
  have hv14a : hexVal (hexChar (b14 / 16)) = b14 / 16 := hexVal_hexChar _ (by omega)
  have hv14b : hexVal (hexChar (b14 % 16)) = b14 % 16 := hexVal_hexChar _ (by omega)
  have hv15a : hexVal (hexChar (b15 / 16)) = b15 / 16 := hexVal_hexChar _ (by omega)
  have hv15b : hexVal (hexChar (b15 % 16)) = b15 % 16 := hexVal_hexChar _ (by omega)
  have hreg : uuidRegexTest [hexChar (b0 / 16), hexChar (b0 % 16), hexChar (b1 / 16), hexChar (b1 % 16), hexChar (b2 / 16), hexChar (b2 % 16), hexChar (b3 / 16), hexChar (b3 % 16), 45, hexChar (b4 / 16), hexChar (b4 % 16), hexChar (b5 / 16), hexChar (b5 % 16), 45, hexChar (b6 / 16), hexChar (b6 % 16), hexChar (b7 / 16), hexChar (b7 % 16), 45, hexChar (b8 / 16), hexChar (b8 % 16), hexChar (b9 / 16), hexChar (b9 % 16), 45, hexChar (b10 / 16), hexChar (b10 % 16), hexChar (b11 / 16), hexChar (b11 % 16), hexChar (b12 / 16), hexChar (b12 % 16), hexChar (b13 / 16), hexChar (b13 % 16), hexChar (b14 / 16), hexChar (b14 % 16), hexChar (b15 / 16), hexChar (b15 % 16)] = true := by
    simp only [uuidRegexTest, ih0a, ih0b, ih1a, ih1b, ih2a, ih2b, ih3a, ih3b, ih4a, ih4b, ih5a, ih5b, ih6a, ih6b, ih7a, ih7b, ih8a, ih8b, ih9a, ih9b, ih10a, ih10b, ih11a, ih11b, ih12a, ih12b, ih13a, ih13b, ih14a, ih14b, ih15a, ih15b, Bool.and_self, Bool.true_and, beq_self_eq_true]
  unfold uuidToBytes
  rw [if_neg (by simp), if_pos hreg]
  rw [filter_keep _ _ ne0a, filter_keep _ _ ne0b, filter_keep _ _ ne1a, filter_keep _ _ ne1b, filter_keep _ _ ne2a, filter_keep _ _ ne2b, filter_keep _ _ ne3a, filter_keep _ _ ne3b, filter_drop45 _, filter_keep _ _ ne4a, filter_keep _ _ ne4b, filter_keep _ _ ne5a, filter_keep _ _ ne5b, filter_drop45 _, filter_keep _ _ ne6a, filter_keep _ _ ne6b, filter_keep _ _ ne7a, filter_keep _ _ ne7b, filter_drop45 _, filter_keep _ _ ne8a, filter_keep _ _ ne8b, filter_keep _ _ ne9a, filter_keep _ _ ne9b, filter_drop45 _, filter_keep _ _ ne10a, filter_keep _ _ ne10b, filter_keep _ _ ne11a, filter_keep _ _ ne11b, filter_keep _ _ ne12a, filter_keep _ _ ne12b, filter_keep _ _ ne13a, filter_keep _ _ ne13b, filter_keep _ _ ne14a, filter_keep _ _ ne14b, filter_keep _ _ ne15a, filter_keep _ _ ne15b, List.filter_nil]
  simp only [List.map_cons, List.map_nil, lc0a, lc0b, lc1a, lc1b, lc2a, lc2b, lc3a, lc3b, lc4a, lc4b, lc5a, lc5b, lc6a, lc6b, lc7a, lc7b, lc8a, lc8b, lc9a, lc9b, lc10a, lc10b, lc11a, lc11b, lc12a, lc12b, lc13a, lc13b, lc14a, lc14b, lc15a, lc15b]
  rw [if_neg (by simp)]
  simp only [hexPairsToBytes]
  simp only [hv0a, hv0b, hv1a, hv1b, hv2a, hv2b, hv3a, hv3b, hv4a, hv4b, hv5a, hv5b, hv6a, hv6b, hv7a, hv7b, hv8a, hv8b, hv9a, hv9b, hv10a, hv10b, hv11a, hv11b, hv12a, hv12b, hv13a, hv13b, hv14a, hv14b, hv15a, hv15b]
  clear ih0a ih0b ne0a ne0b lc0a lc0b hv0a hv0b ih1a ih1b ne1a ne1b lc1a lc1b hv1a hv1b ih2a ih2b ne2a ne2b lc2a lc2b hv2a hv2b ih3a ih3b ne3a ne3b lc3a lc3b hv3a hv3b ih4a ih4b ne4a ne4b lc4a lc4b hv4a hv4b ih5a ih5b ne5a ne5b lc5a lc5b hv5a hv5b ih6a ih6b ne6a ne6b lc6a lc6b hv6a hv6b ih7a ih7b ne7a ne7b lc7a lc7b hv7a hv7b ih8a ih8b ne8a ne8b lc8a lc8b hv8a hv8b ih9a ih9b ne9a ne9b lc9a lc9b hv9a hv9b ih10a ih10b ne10a ne10b lc10a lc10b hv10a hv10b ih11a ih11b ne11a ne11b lc11a lc11b hv11a hv11b ih12a ih12b ne12a ne12b lc12a lc12b hv12a hv12b ih13a ih13b ne13a ne13b lc13a lc13b hv13a hv13b ih14a ih14b ne14a ne14b lc14a lc14b hv14a hv14b ih15a ih15b ne15a ne15b lc15a lc15b hv15a hv15b
  simp only [Except.ok.injEq, List.cons.injEq, and_true]
  refine ⟨?_, ?_, ?_, ?_, ?_, ?_, ?_, ?_, ?_, ?_, ?_, ?_, ?_, ?_, ?_, ?_⟩ <;> omega


/-- List-level UUID round trip. -/
theorem uuid_decode_encode_list (l : List Nat) (h16 : l.length = 16) (hb : ∀ x ∈ l, x < 256) :
    ∃ u, formatAsUUID l = .ok u ∧ uuidToBytes u = .ok l := by
  obtain ⟨b0, l1, rfl, hl1⟩ := exists_cons_of_length_succ l 15 h16
  obtain ⟨b1, l2, rfl, hl2⟩ := exists_cons_of_length_succ l1 14 hl1
  obtain ⟨b2, l3, rfl, hl3⟩ := exists_cons_of_length_succ l2 13 hl2
  obtain ⟨b3, l4, rfl, hl4⟩ := exists_cons_of_length_succ l3 12 hl3
  obtain ⟨b4, l5, rfl, hl5⟩ := exists_cons_of_length_succ l4 11 hl4
  obtain ⟨b5, l6, rfl, hl6⟩ := exists_cons_of_length_succ l5 10 hl5
  obtain ⟨b6, l7, rfl, hl7⟩ := exists_cons_of_length_succ l6 9 hl6
  obtain ⟨b7, l8, rfl, hl8⟩ := exists_cons_of_length_succ l7 8 hl7
  obtain ⟨b8, l9, rfl, hl9⟩ := exists_cons_of_length_succ l8 7 hl8
  obtain ⟨b9, l10, rfl, hl10⟩ := exists_cons_of_length_succ l9 6 hl9
  obtain ⟨b10, l11, rfl, hl11⟩ := exists_cons_of_length_succ l10 5 hl10
  obtain ⟨b11, l12, rfl, hl12⟩ := exists_cons_of_length_succ l11 4 hl11
  obtain ⟨b12, l13, rfl, hl13⟩ := exists_cons_of_length_succ l12 3 hl12
  obtain ⟨b13, l14, rfl, hl14⟩ := exists_cons_of_length_succ l13 2 hl13
  obtain ⟨b14, l15, rfl, hl15⟩ := exists_cons_of_length_succ l14 1 hl14
  obtain ⟨b15, l16, rfl, hl16⟩ := exists_cons_of_length_succ l15 0 hl15
  rw [List.length_eq_zero.mp hl16]
  have h := uuid_decode_encode16 b0 b1 b2 b3 b4 b5 b6 b7 b8 b9 b10 b11 b12 b13 b14 b15
    (hb b0 (by simp)) (hb b1 (by simp)) (hb b2 (by simp)) (hb b3 (by simp))
    (hb b4 (by simp)) (hb b5 (by simp)) (hb b6 (by simp)) (hb b7 (by simp))
    (hb b8 (by simp)) (hb b9 (by simp)) (hb b10 (by simp)) (hb b11 (by simp))
    (hb b12 (by simp)) (hb b13 (by simp)) (hb b14 (by simp)) (hb b15 (by simp))
  exact ⟨_, h.1, h.2⟩

/-- Inversion of a successful constructor call. -/
theorem pULID_new_inv (t s : Int) (e : List Nat) (x : pULID)
    (h : pULID.new t s e = .ok x) :
    0 ≤ t ∧ t ≤ MAX_TIMESTAMP ∧ e.length = 8 ∧
    x.timestamp = t ∧ x.entropy = e ∧ x.scope = (if s = 0 then 65535 else s) ∧
    1 ≤ x.scope ∧ x.scope ≤ 65535 := by
  unfold pULID.new at h
  cases hvt : validateTimestampE t with
  | error err => rw [hvt] at h; exact absurd h (by simp)
  | ok u =>
  cases u
  rw [hvt] at h
  have htr : 0 ≤ t ∧ t ≤ MAX_TIMESTAMP := by
    unfold validateTimestampE at hvt
    split_ifs at hvt with a b
    exact ⟨by omega, by omega⟩
  cases hvs : (if s ≠ 0 then validateScopeE s else Except.ok ()) with
  | error err => rw [hvs] at h; exact absurd h (by simp)
  | ok v =>
  cases v
  rw [hvs] at h
  have hsr : 1 ≤ (if s = 0 then (65535 : Int) else s) ∧
      (if s = 0 then (65535 : Int) else s) ≤ 65535 := by
    by_cases hs : s = 0
    · rw [if_pos hs]
      exact ⟨by omega, by omega⟩
    · rw [if_pos hs] at hvs
      unfold validateScopeE at hvs
      split_ifs at hvs with a b
      rw [if_neg hs]
      exact ⟨by omega, by omega⟩
  replace h : (if e.length ≠ 8 then Except.error Err.entropyLength
      else Except.ok ⟨t, if s = 0 then 65535 else s, e⟩) = Except.ok x := h
  by_cases he : e.length = 8
  · rw [if_neg (by omega)] at h
    injection h with h2
    subst h2
    exact ⟨htr.1, htr.2, he, rfl, rfl, rfl, hsr.1, hsr.2⟩
  · rw [if_pos (by omega)] at h
    exact absurd h (by simp)

/-- `toBytes` on an identifier with in-range fields. -/
theorem toBytes_ok (t s : Int) (e : List Nat) (ht0 : 0 ≤ t) (ht1 : t ≤ MAX_TIMESTAMP)
    (hs0 : 1 ≤ s) (hs1 : s ≤ 65535) :
    pULID.toBytes ⟨t, s, e⟩ =
      .ok (t.toNat / 256 / 256 / 256 / 256 / 256 % 256 ::
           t.toNat / 256 / 256 / 256 / 256 % 256 ::
           t.toNat / 256 / 256 / 256 % 256 :: t.toNat / 256 / 256 % 256 ::
           t.toNat / 256 % 256 :: t.toNat % 256 ::
           s.toNat / 256 :: s.toNat % 256 :: e) := by
  have hvt : validateTimestampE t = .ok () := by
    unfold validateTimestampE
    rw [if_neg (by omega), if_neg (by omega)]
  have hvs : validateScopeE s = .ok () := by
    unfold validateScopeE
    rw [if_neg (by omega), if_neg (by omega)]
  unfold pULID.toBytes timestampToBytes scopeToBytes
  rw [hvt, hvs]
  rw [tsLoop_six, scopeHighByte s.toNat (by omega), andMod256]
  simp only [List.cons_append, List.nil_append]

/-- `fromBytes` on 16 in-range bytes with a non-zero stored scope
succeeds with fields read straight off the buffer. -/
theorem fromBytes_ok (l : List Nat) (h16 : l.length = 16) (hb : ∀ x ∈ l, x < 256)
    (hs : bytesToScope l ≠ 0) :
    pULID.fromBytes l =
      .ok ⟨((bytesToTimestamp l) : Int), ((bytesToScope l) : Int), bytesToEntropy l⟩ := by
  obtain ⟨b0, l1, rfl, hl1⟩ := exists_cons_of_length_succ l 15 h16
  obtain ⟨b1, l2, rfl, hl2⟩ := exists_cons_of_length_succ l1 14 hl1
  obtain ⟨b2, l3, rfl, hl3⟩ := exists_cons_of_length_succ l2 13 hl2
  obtain ⟨b3, l4, rfl, hl4⟩ := exists_cons_of_length_succ l3 12 hl3
  obtain ⟨b4, l5, rfl, hl5⟩ := exists_cons_of_length_succ l4 11 hl4
  obtain ⟨b5, l6, rfl, hl6⟩ := exists_cons_of_length_succ l5 10 hl5
  obtain ⟨b6, l7, rfl, hl7⟩ := exists_cons_of_length_succ l6 9 hl6
  obtain ⟨b7, l8, rfl, hl8⟩ := exists_cons_of_length_succ l7 8 hl7
  have hb0 := hb b0 (by simp)
  have hb1 := hb b1 (by simp)
  have hb2 := hb b2 (by simp)
  have hb3 := hb b3 (by simp)
  have hb4 := hb b4 (by simp)
  have hb5 := hb b5 (by simp)
  have hb6 := hb b6 (by simp)
  have hb7 := hb b7 (by simp)
  have hts : bytesToTimestamp (b0 :: b1 :: b2 :: b3 :: b4 :: b5 :: b6 :: b7 :: l8) =
      ((((b0 * 256 + b1) * 256 + b2) * 256 + b3) * 256 + b4) * 256 + b5 := rfl
  have hsc : bytesToScope (b0 :: b1 :: b2 :: b3 :: b4 :: b5 :: b6 :: b7 :: l8) =
      b6 * 256 + b7 := by
    show (b6 <<< 8) ||| b7 = b6 * 256 + b7
    rw [Nat.shiftLeft_eq]
    norm_num
    exact orj256 b6 b7 hb7
  unfold pULID.fromBytes
  rw [if_neg (by simp; omega)]
  have hnew : pULID.new (((bytesToTimestamp (b0 :: b1 :: b2 :: b3 :: b4 :: b5 :: b6 :: b7 :: l8)) : Int))
      (((bytesToScope (b0 :: b1 :: b2 :: b3 :: b4 :: b5 :: b6 :: b7 :: l8)) : Int))
      (bytesToEntropy (b0 :: b1 :: b2 :: b3 :: b4 :: b5 :: b6 :: b7 :: l8)) =
      .ok ⟨((bytesToTimestamp (b0 :: b1 :: b2 :: b3 :: b4 :: b5 :: b6 :: b7 :: l8)) : Int),
           ((bytesToScope (b0 :: b1 :: b2 :: b3 :: b4 :: b5 :: b6 :: b7 :: l8)) : Int),
           bytesToEntropy (b0 :: b1 :: b2 :: b3 :: b4 :: b5 :: b6 :: b7 :: l8)⟩ := by
    have hvt : validateTimestampE
        (((bytesToTimestamp (b0 :: b1 :: b2 :: b3 :: b4 :: b5 :: b6 :: b7 :: l8)) : Int)) =
        .ok () := by
      unfold validateTimestampE MAX_TIMESTAMP
      rw [hts, if_neg (by omega), if_neg (by push_cast; omega)]
    have hsnz : ((bytesToScope (b0 :: b1 :: b2 :: b3 :: b4 :: b5 :: b6 :: b7 :: l8)) : Int) ≠ 0 := by
      rw [hsc]
      rw [hsc] at hs
      push_cast
      omega
    have hvs : validateScopeE
        (((bytesToScope (b0 :: b1 :: b2 :: b3 :: b4 :: b5 :: b6 :: b7 :: l8)) : Int)) = .ok () := by
      unfold validateScopeE
      rw [hsc]
      rw [hsc] at hs
      rw [if_neg (by push_cast; omega), if_neg (by push_cast; omega)]
    unfold pULID.new
    rw [hvt, if_pos hsnz, hvs]
    have hs8 : (bytesToEntropy (b0 :: b1 :: b2 :: b3 :: b4 :: b5 :: b6 :: b7 :: l8)).length = 8 := by
      simp [bytesToEntropy]
      omega
    show (if (bytesToEntropy (b0 :: b1 :: b2 :: b3 :: b4 :: b5 :: b6 :: b7 :: l8)).length ≠ 8 then Except.error Err.entropyLength
        else Except.ok (pULID.mk ((bytesToTimestamp (b0 :: b1 :: b2 :: b3 :: b4 :: b5 :: b6 :: b7 :: l8)) : Int)
          (if ((bytesToScope (b0 :: b1 :: b2 :: b3 :: b4 :: b5 :: b6 :: b7 :: l8)) : Int) = 0 then 65535 else ((bytesToScope (b0 :: b1 :: b2 :: b3 :: b4 :: b5 :: b6 :: b7 :: l8)) : Int))
          (bytesToEntropy (b0 :: b1 :: b2 :: b3 :: b4 :: b5 :: b6 :: b7 :: l8)))) =
      Except.ok (pULID.mk ((bytesToTimestamp (b0 :: b1 :: b2 :: b3 :: b4 :: b5 :: b6 :: b7 :: l8)) : Int) ((bytesToScope (b0 :: b1 :: b2 :: b3 :: b4 :: b5 :: b6 :: b7 :: l8)) : Int)
        (bytesToEntropy (b0 :: b1 :: b2 :: b3 :: b4 :: b5 :: b6 :: b7 :: l8)))
    rw [if_neg (by omega), if_neg hsnz]
  rw [hnew]

/-! ### Claim theorems -/

/-- C1: the spec requires a textual input whose stored scope bytes are
`0x0000` to fail parsing with a reserved-value error.  The code instead
parses it successfully: `pULID.fromBytes` reads the scope through
encoding.js's unchecked `bytesToScope`, and the constructor silently maps
the extracted 0 to 65535.  This theorem evaluates all three parsing entry
points on the all-zero identifier (Base32 `"00000000000000000000000000"`,
the 16 zero bytes, and the all-zero UUID) and shows each returns a valid
identifier with scope 65535 instead of an error. -/
theorem c1_zero_scope_parses_as_65535 :
    pULID.parse (List.replicate 26 48) =
      .ok ⟨0, 65535, List.replicate 8 0⟩ ∧
    pULID.fromBytes (List.replicate 16 0) =
      .ok ⟨0, 65535, List.replicate 8 0⟩ ∧
    pULID.fromUUID
      [48, 48, 48, 48, 48, 48, 48, 48, 45, 48, 48, 48, 48, 45, 48, 48, 48, 48, 45,
       48, 48, 48, 48, 45, 48, 48, 48, 48, 48, 48, 48, 48, 48, 48, 48, 48] =
      .ok ⟨0, 65535, List.replicate 8 0⟩ := by
  decide

/-- C2: constructing with public scope 0 stores 65535; public scope 65535
stores 65535 unchanged; public scopes 65536 and -1 fail with the range
error. -/
theorem c2_scope_boundary (ts : Int) (e : List Nat)
    (hts0 : 0 ≤ ts) (hts1 : ts ≤ MAX_TIMESTAMP) (he : e.length = 8) :
    pULID.new ts 0 e = .ok ⟨ts, 65535, e⟩ ∧
    pULID.new ts 65535 e = .ok ⟨ts, 65535, e⟩ ∧
    pULID.new ts 65536 e = .error .scopeRange ∧
    pULID.new ts (-1) e = .error .scopeRange := by
  have hv : validateTimestampE ts = .ok () := by
    unfold validateTimestampE
    rw [if_neg (by omega), if_neg (by omega)]
  refine ⟨?_, ?_, ?_, ?_⟩ <;>
    simp [pULID.new, hv, validateScopeE, he]

/-- Witness for C2 at timestamp 0 and entropy `[0,…,0]`. -/
theorem c2_scope_boundary_witness :
    (0 : Int) ≤ 0 ∧ (0 : Int) ≤ MAX_TIMESTAMP ∧
      (List.replicate 8 0).length = 8 ∧
      pULID.new 0 0 (List.replicate 8 0) = .ok ⟨0, 65535, List.replicate 8 0⟩ :=
  ⟨by decide, by decide, by decide,
    (c2_scope_boundary 0 (List.replicate 8 0) (by decide) (by decide) (by decide)).1⟩

/-- C7: a 26-character string whose first character decodes through the
table to an alphabet index of 8 or more always fails `decodeBase32`: with
the invalid-character error if some other character is invalid, otherwise
with the overflow error. -/
theorem c7_overflow_guard (s : List Nat) (v : Nat) (h26 : s.length = 26)
    (hv : C2B32 (g s 0) = some v) (h8 : 8 ≤ v) (h32 : v < 32) :
    decodeBase32 s = .error .invalidChar ∨ decodeBase32 s = .error .overflow := by
  have hc : g s 0 < 256 := by
    by_contra hge
    simp [C2B32, if_neg hge] at hv
  have htv : tableVal (g s 0) = v := by
    simpa [C2B32, if_pos hc] using hv
  have h55 : 55 < g s 0 := tableVal_ge8_code (g s 0) hc (htv ▸ h8) (htv ▸ h32)
  unfold decodeBase32
  rw [if_neg (by omega)]
  by_cases hall : s.all validB32Char
  · right
    rw [if_pos hall, if_pos h55]
  · left
    rw [if_neg hall]

/-- Witness for C7 on the string `"8" ++ "0"*25`. -/
theorem c7_overflow_guard_witness :
    decodeBase32 (56 :: List.replicate 25 48) = .error .invalidChar ∨
      decodeBase32 (56 :: List.replicate 25 48) = .error .overflow :=
  c7_overflow_guard (56 :: List.replicate 25 48) 8 (by decide) (by decide)
    (by decide) (by decide)

/-- C9 counterexample: the byte sequence stated by the spec for the
concrete scenario (timestamp 1469918176385, public scope 1000, entropy
`00 01 02 03 04 05 06 07`) is a 17-byte sequence that `toBytes` does not
produce. -/
theorem c9_spec_bytes_refuted :
    (pULID.new 1469918176385 1000 [0, 1, 2, 3, 4, 5, 6, 7]).bind pULID.toBytes ≠
      .ok [0x00, 0x00, 0x15, 0x59, 0xA3, 0xF8, 0xEC, 0x03,
           0x01, 0x00, 0x01, 0x02, 0x03, 0x04, 0x05, 0x06, 0x07] := by
  decide

/-- C9 amended: the scenario packs to
`01 56 3D F3 64 81 03 E8 00 01 02 03 04 05 06 07` (big-endian timestamp
`0x01563DF36481`, scope `0x03E8`, then the entropy). -/
theorem c9_toBytes_golden :
    (pULID.new 1469918176385 1000 [0, 1, 2, 3, 4, 5, 6, 7]).bind pULID.toBytes =
      .ok [0x01, 0x56, 0x3D, 0xF3, 0x64, 0x81, 0x03, 0xE8,
           0x00, 0x01, 0x02, 0x03, 0x04, 0x05, 0x06, 0x07] := by
  decide

/-- C10: `pULID.generate` treats falsy option values as absent: a
timestamp option of 0 is replaced by the clock reading (although 0 itself
validates), and a scope option of 0 falls back to the default scope 1
(although direct construction with public scope 0 stores 65535). -/
theorem c10_generate_falsy_options (now : Int) (e rnd : List Nat)
    (h0 : 0 ≤ now) (h1 : now ≤ MAX_TIMESTAMP) (he : e.length = 8) :
    pULID.generate ⟨some 0, none, some e⟩ now rnd = .ok ⟨now, 1, e⟩ ∧
    pULID.new 0 1 e = .ok ⟨0, 1, e⟩ ∧
    pULID.generate ⟨none, some 0, some e⟩ now rnd = .ok ⟨now, 1, e⟩ ∧
    pULID.new now 0 e = .ok ⟨now, 65535, e⟩ := by
  have hv : validateTimestampE now = .ok () := by
    unfold validateTimestampE
    rw [if_neg (by omega), if_neg (by omega)]
  have hv0 : validateTimestampE 0 = .ok () := by decide
  refine ⟨?_, ?_, ?_, ?_⟩ <;>
    simp [pULID.generate, jsOrInt, jsOrObj, pULID.new, hv, hv0, validateScopeE, he]

/-- Witness for C10 at clock reading 5 and entropy `[0,…,0]`. -/
theorem c10_generate_falsy_options_witness :
    pULID.generate ⟨some 0, none, some (List.replicate 8 0)⟩ 5 [] =
      .ok ⟨5, 1, List.replicate 8 0⟩ ∧
    pULID.generate ⟨none, some 0, some (List.replicate 8 0)⟩ 5 [] =
      .ok ⟨5, 1, List.replicate 8 0⟩ :=
  ⟨(c10_generate_falsy_options 5 (List.replicate 8 0) [] (by decide) (by decide)
      (by decide)).1,
   (c10_generate_falsy_options 5 (List.replicate 8 0) [] (by decide) (by decide)
      (by decide)).2.2.1⟩

/-- C8 counterexample: on the UUID `00000000-0000-ffff-0000-000000000000`
(stored scope bytes `0xFFFF`) the two UUID-path scope readers disagree:
`UUIDConverter.extractScope` remaps the stored maximum to 0 while
`pULID.fromUUID(...).getScope()` returns 65535, refuting the claimed
equivalence. -/
theorem c8_extractScope_remaps_counterexample :
    extractScope
      [48, 48, 48, 48, 48, 48, 48, 48, 45, 48, 48, 48, 48, 45, 102, 102, 102, 102, 45,
       48, 48, 48, 48, 45, 48, 48, 48, 48, 48, 48, 48, 48, 48, 48, 48, 48] = .ok 0 ∧
    (pULID.fromUUID
      [48, 48, 48, 48, 48, 48, 48, 48, 45, 48, 48, 48, 48, 45, 102, 102, 102, 102, 45,
       48, 48, 48, 48, 45, 48, 48, 48, 48, 48, 48, 48, 48, 48, 48, 48, 48]).map
      pULID.getScope = .ok 65535 := by
  decide

/-- C3: both codecs are left inverses of the matching encoders on every
16-byte buffer. -/
theorem c3_codecs_left_invertible (l : List Nat) (h16 : l.length = 16)
    (hb : ∀ x ∈ l, x < 256) :
    (∃ s, encodeBase32 l = .ok s ∧ decodeBase32 s = .ok l) ∧
    (∃ u, formatAsUUID l = .ok u ∧ uuidToBytes u = .ok l) := by
  constructor
  · refine ⟨b32chars l, ?_, decode_encode_list l h16 hb⟩
    unfold encodeBase32
    rw [if_neg (by omega)]
  · exact uuid_decode_encode_list l h16 hb

/-- Witness for C3 on a buffer with a high first byte and zero scope
bytes. -/
theorem c3_codecs_left_invertible_witness :
    (∃ s, encodeBase32 [255, 1, 2, 3, 4, 5, 0, 0, 7, 8, 9, 10, 11, 12, 13, 255] = .ok s ∧
       decodeBase32 s = .ok [255, 1, 2, 3, 4, 5, 0, 0, 7, 8, 9, 10, 11, 12, 13, 255]) ∧
    (∃ u, formatAsUUID [255, 1, 2, 3, 4, 5, 0, 0, 7, 8, 9, 10, 11, 12, 13, 255] = .ok u ∧
       uuidToBytes u = .ok [255, 1, 2, 3, 4, 5, 0, 0, 7, 8, 9, 10, 11, 12, 13, 255]) :=
  c3_codecs_left_invertible [255, 1, 2, 3, 4, 5, 0, 0, 7, 8, 9, 10, 11, 12, 13, 255]
    (by decide) (by decide)

/-- C4: round trip through both textual forms for every successfully
constructed identifier: `fromUUID (toUUID x) = x` and
`parse (toString x) = x`, with full field-wise equality. -/
theorem c4_identifier_roundtrip (t s : Int) (e : List Nat) (x : pULID)
    (he : ∀ y ∈ e, y < 256) (hx : pULID.new t s e = .ok x) :
    (∃ u, pULID.toUUID x = .ok u ∧ pULID.fromUUID u = .ok x) ∧
    (∃ str, pULID.toStr x = .ok str ∧ pULID.parse str = .ok x) := by
  obtain ⟨ht0, ht1, he8, hxt, hxe, hxsc, hs1, hs2⟩ := pULID_new_inv t s e x hx
  have ht1L : t ≤ 281474976710655 := by
    have h2 := ht1
    rw [show MAX_TIMESTAMP = 281474976710655 from rfl] at h2
    exact h2
  have hel : x.entropy.length = 8 := by rw [hxe]; exact he8
  have htb : pULID.toBytes x = .ok (x.timestamp.toNat / 256 / 256 / 256 / 256 / 256 % 256 :: x.timestamp.toNat / 256 / 256 / 256 / 256 % 256 :: x.timestamp.toNat / 256 / 256 / 256 % 256 :: x.timestamp.toNat / 256 / 256 % 256 :: x.timestamp.toNat / 256 % 256 :: x.timestamp.toNat % 256 :: x.scope.toNat / 256 :: x.scope.toNat % 256 :: x.entropy) :=
    toBytes_ok x.timestamp x.scope x.entropy (by omega) (by omega) hs1 hs2
  have hB16 : ((x.timestamp.toNat / 256 / 256 / 256 / 256 / 256 % 256 :: x.timestamp.toNat / 256 / 256 / 256 / 256 % 256 :: x.timestamp.toNat / 256 / 256 / 256 % 256 :: x.timestamp.toNat / 256 / 256 % 256 :: x.timestamp.toNat / 256 % 256 :: x.timestamp.toNat % 256 :: x.scope.toNat / 256 :: x.scope.toNat % 256 :: x.entropy)).length = 16 := by
    simp [hel]
  have hBb : ∀ y ∈ (x.timestamp.toNat / 256 / 256 / 256 / 256 / 256 % 256 :: x.timestamp.toNat / 256 / 256 / 256 / 256 % 256 :: x.timestamp.toNat / 256 / 256 / 256 % 256 :: x.timestamp.toNat / 256 / 256 % 256 :: x.timestamp.toNat / 256 % 256 :: x.timestamp.toNat % 256 :: x.scope.toNat / 256 :: x.scope.toNat % 256 :: x.entropy), y < 256 := by
    intro y hy
    simp only [List.mem_cons] at hy
    rcases hy with rfl | rfl | rfl | rfl | rfl | rfl | rfl | rfl | hy
    · omega
    · omega
    · omega
    · omega
    · omega
    · omega
    · omega
    · omega
    · exact he y (hxe ▸ hy)
  have hBsc : bytesToScope (x.timestamp.toNat / 256 / 256 / 256 / 256 / 256 % 256 :: x.timestamp.toNat / 256 / 256 / 256 / 256 % 256 :: x.timestamp.toNat / 256 / 256 / 256 % 256 :: x.timestamp.toNat / 256 / 256 % 256 :: x.timestamp.toNat / 256 % 256 :: x.timestamp.toNat % 256 :: x.scope.toNat / 256 :: x.scope.toNat % 256 :: x.entropy) = x.scope.toNat := by
    show ((x.scope.toNat / 256) <<< 8) ||| x.scope.toNat % 256 = x.scope.toNat
    rw [Nat.shiftLeft_eq]
    norm_num
    rw [orj256 _ _ (by omega)]
    omega
  have hBts : bytesToTimestamp (x.timestamp.toNat / 256 / 256 / 256 / 256 / 256 % 256 :: x.timestamp.toNat / 256 / 256 / 256 / 256 % 256 :: x.timestamp.toNat / 256 / 256 / 256 % 256 :: x.timestamp.toNat / 256 / 256 % 256 :: x.timestamp.toNat / 256 % 256 :: x.timestamp.toNat % 256 :: x.scope.toNat / 256 :: x.scope.toNat % 256 :: x.entropy) = x.timestamp.toNat := by
    show ((((x.timestamp.toNat / 256 / 256 / 256 / 256 / 256 % 256 * 256 +
      x.timestamp.toNat / 256 / 256 / 256 / 256 % 256) * 256 +
      x.timestamp.toNat / 256 / 256 / 256 % 256) * 256 +
      x.timestamp.toNat / 256 / 256 % 256) * 256 +
      x.timestamp.toNat / 256 % 256) * 256 + x.timestamp.toNat % 256 = x.timestamp.toNat
    omega
  have hBent : bytesToEntropy (x.timestamp.toNat / 256 / 256 / 256 / 256 / 256 % 256 :: x.timestamp.toNat / 256 / 256 / 256 / 256 % 256 :: x.timestamp.toNat / 256 / 256 / 256 % 256 :: x.timestamp.toNat / 256 / 256 % 256 :: x.timestamp.toNat / 256 % 256 :: x.timestamp.toNat % 256 :: x.scope.toNat / 256 :: x.scope.toNat % 256 :: x.entropy) = x.entropy := by
    show (((x.timestamp.toNat / 256 / 256 / 256 / 256 / 256 % 256 :: x.timestamp.toNat / 256 / 256 / 256 / 256 % 256 :: x.timestamp.toNat / 256 / 256 / 256 % 256 :: x.timestamp.toNat / 256 / 256 % 256 :: x.timestamp.toNat / 256 % 256 :: x.timestamp.toNat % 256 :: x.scope.toNat / 256 :: x.scope.toNat % 256 :: x.entropy)).drop 8).take 8 = x.entropy
    rw [show ((x.timestamp.toNat / 256 / 256 / 256 / 256 / 256 % 256 :: x.timestamp.toNat / 256 / 256 / 256 / 256 % 256 :: x.timestamp.toNat / 256 / 256 / 256 % 256 :: x.timestamp.toNat / 256 / 256 % 256 :: x.timestamp.toNat / 256 % 256 :: x.timestamp.toNat % 256 :: x.scope.toNat / 256 :: x.scope.toNat % 256 :: x.entropy)).drop 8 = x.entropy from rfl]
    rw [← hel, List.take_length]
  have hfb : pULID.fromBytes (x.timestamp.toNat / 256 / 256 / 256 / 256 / 256 % 256 :: x.timestamp.toNat / 256 / 256 / 256 / 256 % 256 :: x.timestamp.toNat / 256 / 256 / 256 % 256 :: x.timestamp.toNat / 256 / 256 % 256 :: x.timestamp.toNat / 256 % 256 :: x.timestamp.toNat % 256 :: x.scope.toNat / 256 :: x.scope.toNat % 256 :: x.entropy) =
      .ok ⟨((bytesToTimestamp (x.timestamp.toNat / 256 / 256 / 256 / 256 / 256 % 256 :: x.timestamp.toNat / 256 / 256 / 256 / 256 % 256 :: x.timestamp.toNat / 256 / 256 / 256 % 256 :: x.timestamp.toNat / 256 / 256 % 256 :: x.timestamp.toNat / 256 % 256 :: x.timestamp.toNat % 256 :: x.scope.toNat / 256 :: x.scope.toNat % 256 :: x.entropy)) : Int), ((bytesToScope (x.timestamp.toNat / 256 / 256 / 256 / 256 / 256 % 256 :: x.timestamp.toNat / 256 / 256 / 256 / 256 % 256 :: x.timestamp.toNat / 256 / 256 / 256 % 256 :: x.timestamp.toNat / 256 / 256 % 256 :: x.timestamp.toNat / 256 % 256 :: x.timestamp.toNat % 256 :: x.scope.toNat / 256 :: x.scope.toNat % 256 :: x.entropy)) : Int), bytesToEntropy (x.timestamp.toNat / 256 / 256 / 256 / 256 / 256 % 256 :: x.timestamp.toNat / 256 / 256 / 256 / 256 % 256 :: x.timestamp.toNat / 256 / 256 / 256 % 256 :: x.timestamp.toNat / 256 / 256 % 256 :: x.timestamp.toNat / 256 % 256 :: x.timestamp.toNat % 256 :: x.scope.toNat / 256 :: x.scope.toNat % 256 :: x.entropy)⟩ :=
    fromBytes_ok (x.timestamp.toNat / 256 / 256 / 256 / 256 / 256 % 256 :: x.timestamp.toNat / 256 / 256 / 256 / 256 % 256 :: x.timestamp.toNat / 256 / 256 / 256 % 256 :: x.timestamp.toNat / 256 / 256 % 256 :: x.timestamp.toNat / 256 % 256 :: x.timestamp.toNat % 256 :: x.scope.toNat / 256 :: x.scope.toNat % 256 :: x.entropy) hB16 hBb (by rw [hBsc]; omega)
  have hxeq : pULID.mk ((bytesToTimestamp (x.timestamp.toNat / 256 / 256 / 256 / 256 / 256 % 256 :: x.timestamp.toNat / 256 / 256 / 256 / 256 % 256 :: x.timestamp.toNat / 256 / 256 / 256 % 256 :: x.timestamp.toNat / 256 / 256 % 256 :: x.timestamp.toNat / 256 % 256 :: x.timestamp.toNat % 256 :: x.scope.toNat / 256 :: x.scope.toNat % 256 :: x.entropy)) : Int) ((bytesToScope (x.timestamp.toNat / 256 / 256 / 256 / 256 / 256 % 256 :: x.timestamp.toNat / 256 / 256 / 256 / 256 % 256 :: x.timestamp.toNat / 256 / 256 / 256 % 256 :: x.timestamp.toNat / 256 / 256 % 256 :: x.timestamp.toNat / 256 % 256 :: x.timestamp.toNat % 256 :: x.scope.toNat / 256 :: x.scope.toNat % 256 :: x.entropy)) : Int)
      (bytesToEntropy (x.timestamp.toNat / 256 / 256 / 256 / 256 / 256 % 256 :: x.timestamp.toNat / 256 / 256 / 256 / 256 % 256 :: x.timestamp.toNat / 256 / 256 / 256 % 256 :: x.timestamp.toNat / 256 / 256 % 256 :: x.timestamp.toNat / 256 % 256 :: x.timestamp.toNat % 256 :: x.scope.toNat / 256 :: x.scope.toNat % 256 :: x.entropy)) = x := by
    rw [hBsc, hBts, hBent]
    rw [Int.toNat_of_nonneg (by omega), Int.toNat_of_nonneg (by omega)]
  have hstr : pULID.toStr x = .ok (b32chars (x.timestamp.toNat / 256 / 256 / 256 / 256 / 256 % 256 :: x.timestamp.toNat / 256 / 256 / 256 / 256 % 256 :: x.timestamp.toNat / 256 / 256 / 256 % 256 :: x.timestamp.toNat / 256 / 256 % 256 :: x.timestamp.toNat / 256 % 256 :: x.timestamp.toNat % 256 :: x.scope.toNat / 256 :: x.scope.toNat % 256 :: x.entropy)) := by
    unfold pULID.toStr
    rw [htb]
    show encodeBase32 (x.timestamp.toNat / 256 / 256 / 256 / 256 / 256 % 256 :: x.timestamp.toNat / 256 / 256 / 256 / 256 % 256 :: x.timestamp.toNat / 256 / 256 / 256 % 256 :: x.timestamp.toNat / 256 / 256 % 256 :: x.timestamp.toNat / 256 % 256 :: x.timestamp.toNat % 256 :: x.scope.toNat / 256 :: x.scope.toNat % 256 :: x.entropy) = _
    unfold encodeBase32
    rw [if_neg (by omega)]
  have hparse : pULID.parse (b32chars (x.timestamp.toNat / 256 / 256 / 256 / 256 / 256 % 256 :: x.timestamp.toNat / 256 / 256 / 256 / 256 % 256 :: x.timestamp.toNat / 256 / 256 / 256 % 256 :: x.timestamp.toNat / 256 / 256 % 256 :: x.timestamp.toNat / 256 % 256 :: x.timestamp.toNat % 256 :: x.scope.toNat / 256 :: x.scope.toNat % 256 :: x.entropy)) = .ok x := by
    unfold pULID.parse
    rw [if_neg (by have := b32chars_length (x.timestamp.toNat / 256 / 256 / 256 / 256 / 256 % 256 :: x.timestamp.toNat / 256 / 256 / 256 / 256 % 256 :: x.timestamp.toNat / 256 / 256 / 256 % 256 :: x.timestamp.toNat / 256 / 256 % 256 :: x.timestamp.toNat / 256 % 256 :: x.timestamp.toNat % 256 :: x.scope.toNat / 256 :: x.scope.toNat % 256 :: x.entropy) hB16; omega)]
    rw [decode_encode_list (x.timestamp.toNat / 256 / 256 / 256 / 256 / 256 % 256 :: x.timestamp.toNat / 256 / 256 / 256 / 256 % 256 :: x.timestamp.toNat / 256 / 256 / 256 % 256 :: x.timestamp.toNat / 256 / 256 % 256 :: x.timestamp.toNat / 256 % 256 :: x.timestamp.toNat % 256 :: x.scope.toNat / 256 :: x.scope.toNat % 256 :: x.entropy) hB16 hBb]
    show pULID.fromBytes (x.timestamp.toNat / 256 / 256 / 256 / 256 / 256 % 256 :: x.timestamp.toNat / 256 / 256 / 256 / 256 % 256 :: x.timestamp.toNat / 256 / 256 / 256 % 256 :: x.timestamp.toNat / 256 / 256 % 256 :: x.timestamp.toNat / 256 % 256 :: x.timestamp.toNat % 256 :: x.scope.toNat / 256 :: x.scope.toNat % 256 :: x.entropy) = .ok x
    rw [hfb]
    exact congrArg Except.ok hxeq
  obtain ⟨u, hfu, hub⟩ := uuid_decode_encode_list (x.timestamp.toNat / 256 / 256 / 256 / 256 / 256 % 256 :: x.timestamp.toNat / 256 / 256 / 256 / 256 % 256 :: x.timestamp.toNat / 256 / 256 / 256 % 256 :: x.timestamp.toNat / 256 / 256 % 256 :: x.timestamp.toNat / 256 % 256 :: x.timestamp.toNat % 256 :: x.scope.toNat / 256 :: x.scope.toNat % 256 :: x.entropy) hB16 hBb
  have huuid : pULID.toUUID x = .ok u := by
    unfold pULID.toUUID
    rw [htb]
    exact hfu
  have hfromu : pULID.fromUUID u = .ok x := by
    unfold pULID.fromUUID
    rw [hub]
    show pULID.fromBytes (x.timestamp.toNat / 256 / 256 / 256 / 256 / 256 % 256 :: x.timestamp.toNat / 256 / 256 / 256 / 256 % 256 :: x.timestamp.toNat / 256 / 256 / 256 % 256 :: x.timestamp.toNat / 256 / 256 % 256 :: x.timestamp.toNat / 256 % 256 :: x.timestamp.toNat % 256 :: x.scope.toNat / 256 :: x.scope.toNat % 256 :: x.entropy) = .ok x
    rw [hfb]
    exact congrArg Except.ok hxeq
  exact ⟨⟨u, huuid, hfromu⟩, ⟨b32chars (x.timestamp.toNat / 256 / 256 / 256 / 256 / 256 % 256 :: x.timestamp.toNat / 256 / 256 / 256 / 256 % 256 :: x.timestamp.toNat / 256 / 256 / 256 % 256 :: x.timestamp.toNat / 256 / 256 % 256 :: x.timestamp.toNat / 256 % 256 :: x.timestamp.toNat % 256 :: x.scope.toNat / 256 :: x.scope.toNat % 256 :: x.entropy), hstr, hparse⟩⟩

/-- Witness for C4 at a concrete identifier. -/
theorem c4_identifier_roundtrip_witness :
    (∀ y ∈ [0, 1, 2, 3, 4, 5, 6, 255], y < 256) ∧
    pULID.new 1469918176385 1000 [0, 1, 2, 3, 4, 5, 6, 255] =
      .ok ⟨1469918176385, 1000, [0, 1, 2, 3, 4, 5, 6, 255]⟩ ∧
    ((∃ u, pULID.toUUID ⟨1469918176385, 1000, [0, 1, 2, 3, 4, 5, 6, 255]⟩ = .ok u ∧
        pULID.fromUUID u = .ok ⟨1469918176385, 1000, [0, 1, 2, 3, 4, 5, 6, 255]⟩) ∧
     (∃ str, pULID.toStr ⟨1469918176385, 1000, [0, 1, 2, 3, 4, 5, 6, 255]⟩ = .ok str ∧
        pULID.parse str = .ok ⟨1469918176385, 1000, [0, 1, 2, 3, 4, 5, 6, 255]⟩)) :=
  ⟨by decide, by decide,
   c4_identifier_roundtrip 1469918176385 1000 [0, 1, 2, 3, 4, 5, 6, 255] _
     (by decide) (by decide)⟩


/-- C8 amended: on a stored scope of 65535 the two pULID parsing paths
(`parse` and `fromUUID`) pass 65535 through unchanged, while
`UUIDConverter.extractScope` remaps it to 0 — the two UUID-path scope
readers are not equivalent there. -/
theorem c8_scope_readers_on_max (l : List Nat) (h16 : l.length = 16)
    (hb : ∀ x ∈ l, x < 256) (h6 : g l 6 = 255) (h7 : g l 7 = 255) :
    (∃ u, formatAsUUID l = .ok u ∧ extractScope u = .ok 0 ∧
       (pULID.fromUUID u).map pULID.getScope = .ok 65535) ∧
    (pULID.parse (b32chars l)).map pULID.getScope = .ok 65535 := by
  have hsc : bytesToScope l = 65535 := by
    unfold bytesToScope
    rw [h6, h7]
    decide
  have hfb := fromBytes_ok l h16 hb (by omega)
  obtain ⟨u, hfu, hub⟩ := uuid_decode_encode_list l h16 hb
  refine ⟨⟨u, hfu, ?_, ?_⟩, ?_⟩
  · unfold extractScope
    rw [hub]
    show Except.ok (if (g l 6 <<< 8) ||| g l 7 = 65535 then 0 else (g l 6 <<< 8) ||| g l 7) =
      Except.ok 0
    unfold bytesToScope at hsc
    rw [if_pos hsc]
  · unfold pULID.fromUUID
    rw [hub]
    show (pULID.fromBytes l).map pULID.getScope = Except.ok 65535
    rw [hfb, hsc]
    rfl
  · unfold pULID.parse
    rw [if_neg (by have := b32chars_length l h16; omega)]
    rw [decode_encode_list l h16 hb]
    show (pULID.fromBytes l).map pULID.getScope = Except.ok 65535
    rw [hfb, hsc]
    rfl

/-- Witness for the amended C8 on the all-zero buffer with scope bytes
`0xFFFF`. -/
theorem c8_scope_readers_on_max_witness :
    (∃ u, formatAsUUID [0, 0, 0, 0, 0, 0, 255, 255, 0, 0, 0, 0, 0, 0, 0, 0] = .ok u ∧
       extractScope u = .ok 0 ∧
       (pULID.fromUUID u).map pULID.getScope = .ok 65535) ∧
    (pULID.parse (b32chars [0, 0, 0, 0, 0, 0, 255, 255, 0, 0, 0, 0, 0, 0, 0, 0])).map
      pULID.getScope = .ok 65535 :=
  c8_scope_readers_on_max [0, 0, 0, 0, 0, 0, 255, 255, 0, 0, 0, 0, 0, 0, 0, 0]
    (by decide) (by decide) (by decide) (by decide)

set_option maxHeartbeats 3200000 in
/-- Core canonicalization round trip: a 26-character string of valid
characters whose first character is a literal digit below 8 decodes,
and re-encoding the bytes yields the canonicalized string. -/
theorem decode_then_encode26 (c0 c1 c2 c3 c4 c5 c6 c7 c8 c9 c10 c11 c12 c13 c14 c15 c16 c17 c18 c19 c20 c21 c22 c23 c24 c25 : Nat)
    (hc0 : c0 < 256) (hc1 : c1 < 256) (hc2 : c2 < 256) (hc3 : c3 < 256) (hc4 : c4 < 256) (hc5 : c5 < 256) (hc6 : c6 < 256) (hc7 : c7 < 256) (hc8 : c8 < 256) (hc9 : c9 < 256) (hc10 : c10 < 256) (hc11 : c11 < 256) (hc12 : c12 < 256) (hc13 : c13 < 256) (hc14 : c14 < 256) (hc15 : c15 < 256) (hc16 : c16 < 256) (hc17 : c17 < 256) (hc18 : c18 < 256) (hc19 : c19 < 256) (hc20 : c20 < 256) (hc21 : c21 < 256) (hc22 : c22 < 256) (hc23 : c23 < 256) (hc24 : c24 < 256) (hc25 : c25 < 256)
    (hv0 : tableVal c0 ≠ 255) (hv1 : tableVal c1 ≠ 255) (hv2 : tableVal c2 ≠ 255) (hv3 : tableVal c3 ≠ 255) (hv4 : tableVal c4 ≠ 255) (hv5 : tableVal c5 ≠ 255) (hv6 : tableVal c6 ≠ 255) (hv7 : tableVal c7 ≠ 255) (hv8 : tableVal c8 ≠ 255) (hv9 : tableVal c9 ≠ 255) (hv10 : tableVal c10 ≠ 255) (hv11 : tableVal c11 ≠ 255) (hv12 : tableVal c12 ≠ 255) (hv13 : tableVal c13 ≠ 255) (hv14 : tableVal c14 ≠ 255) (hv15 : tableVal c15 ≠ 255) (hv16 : tableVal c16 ≠ 255) (hv17 : tableVal c17 ≠ 255) (hv18 : tableVal c18 ≠ 255) (hv19 : tableVal c19 ≠ 255) (hv20 : tableVal c20 ≠ 255) (hv21 : tableVal c21 ≠ 255) (hv22 : tableVal c22 ≠ 255) (hv23 : tableVal c23 ≠ 255) (hv24 : tableVal c24 ≠ 255) (hv25 : tableVal c25 ≠ 255)
    (h55 : c0 ≤ 55) :
    decodeBase32 [c0, c1, c2, c3, c4, c5, c6, c7, c8, c9, c10, c11, c12, c13, c14, c15, c16, c17, c18, c19, c20, c21, c22, c23, c24, c25] = .ok (decodeBytes [c0, c1, c2, c3, c4, c5, c6, c7, c8, c9, c10, c11, c12, c13, c14, c15, c16, c17, c18, c19, c20, c21, c22, c23, c24, c25]) ∧
    encodeBase32 (decodeBytes [c0, c1, c2, c3, c4, c5, c6, c7, c8, c9, c10, c11, c12, c13, c14, c15, c16, c17, c18, c19, c20, c21, c22, c23, c24, c25]) = .ok (canonicalize [c0, c1, c2, c3, c4, c5, c6, c7, c8, c9, c10, c11, c12, c13, c14, c15, c16, c17, c18, c19, c20, c21, c22, c23, c24, c25]) := by
  have w0 : tableVal c0 < 32 := tableVal_lt_32 c0 hc0 hv0
  have w1 : tableVal c1 < 32 := tableVal_lt_32 c1 hc1 hv1
  have w2 : tableVal c2 < 32 := tableVal_lt_32 c2 hc2 hv2
  have w3 : tableVal c3 < 32 := tableVal_lt_32 c3 hc3 hv3
  have w4 : tableVal c4 < 32 := tableVal_lt_32 c4 hc4 hv4
  have w5 : tableVal c5 < 32 := tableVal_lt_32 c5 hc5 hv5
  have w6 : tableVal c6 < 32 := tableVal_lt_32 c6 hc6 hv6
  have w7 : tableVal c7 < 32 := tableVal_lt_32 c7 hc7 hv7
  have w8 : tableVal c8 < 32 := tableVal_lt_32 c8 hc8 hv8
  have w9 : tableVal c9 < 32 := tableVal_lt_32 c9 hc9 hv9
  have w10 : tableVal c10 < 32 := tableVal_lt_32 c10 hc10 hv10
  have w11 : tableVal c11 < 32 := tableVal_lt_32 c11 hc11 hv11
  have w12 : tableVal c12 < 32 := tableVal_lt_32 c12 hc12 hv12
  have w13 : tableVal c13 < 32 := tableVal_lt_32 c13 hc13 hv13
  have w14 : tableVal c14 < 32 := tableVal_lt_32 c14 hc14 hv14
  have w15 : tableVal c15 < 32 := tableVal_lt_32 c15 hc15 hv15
  have w16 : tableVal c16 < 32 := tableVal_lt_32 c16 hc16 hv16
  have w17 : tableVal c17 < 32 := tableVal_lt_32 c17 hc17 hv17
  have w18 : tableVal c18 < 32 := tableVal_lt_32 c18 hc18 hv18
  have w19 : tableVal c19 < 32 := tableVal_lt_32 c19 hc19 hv19
  have w20 : tableVal c20 < 32 := tableVal_lt_32 c20 hc20 hv20
  have w21 : tableVal c21 < 32 := tableVal_lt_32 c21 hc21 hv21
  have w22 : tableVal c22 < 32 := tableVal_lt_32 c22 hc22 hv22
  have w23 : tableVal c23 < 32 := tableVal_lt_32 c23 hc23 hv23
  have w24 : tableVal c24 < 32 := tableVal_lt_32 c24 hc24 hv24
  have w25 : tableVal c25 < 32 := tableVal_lt_32 c25 hc25 hv25
  have t0 : jsToInt (C2B32 c0) = tableVal c0 := jsToInt_C2B32 c0 hc0
  have t1 : jsToInt (C2B32 c1) = tableVal c1 := jsToInt_C2B32 c1 hc1
  have t2 : jsToInt (C2B32 c2) = tableVal c2 := jsToInt_C2B32 c2 hc2
  have t3 : jsToInt (C2B32 c3) = tableVal c3 := jsToInt_C2B32 c3 hc3
  have t4 : jsToInt (C2B32 c4) = tableVal c4 := jsToInt_C2B32 c4 hc4
  have t5 : jsToInt (C2B32 c5) = tableVal c5 := jsToInt_C2B32 c5 hc5
  have t6 : jsToInt (C2B32 c6) = tableVal c6 := jsToInt_C2B32 c6 hc6
  have t7 : jsToInt (C2B32 c7) = tableVal c7 := jsToInt_C2B32 c7 hc7
  have t8 : jsToInt (C2B32 c8) = tableVal c8 := jsToInt_C2B32 c8 hc8
  have t9 : jsToInt (C2B32 c9) = tableVal c9 := jsToInt_C2B32 c9 hc9
  have t10 : jsToInt (C2B32 c10) = tableVal c10 := jsToInt_C2B32 c10 hc10
  have t11 : jsToInt (C2B32 c11) = tableVal c11 := jsToInt_C2B32 c11 hc11
  have t12 : jsToInt (C2B32 c12) = tableVal c12 := jsToInt_C2B32 c12 hc12
  have t13 : jsToInt (C2B32 c13) = tableVal c13 := jsToInt_C2B32 c13 hc13
  have t14 : jsToInt (C2B32 c14) = tableVal c14 := jsToInt_C2B32 c14 hc14
  have t15 : jsToInt (C2B32 c15) = tableVal c15 := jsToInt_C2B32 c15 hc15
  have t16 : jsToInt (C2B32 c16) = tableVal c16 := jsToInt_C2B32 c16 hc16
  have t17 : jsToInt (C2B32 c17) = tableVal c17 := jsToInt_C2B32 c17 hc17
  have t18 : jsToInt (C2B32 c18) = tableVal c18 := jsToInt_C2B32 c18 hc18
  have t19 : jsToInt (C2B32 c19) = tableVal c19 := jsToInt_C2B32 c19 hc19
  have t20 : jsToInt (C2B32 c20) = tableVal c20 := jsToInt_C2B32 c20 hc20
  have t21 : jsToInt (C2B32 c21) = tableVal c21 := jsToInt_C2B32 c21 hc21
  have t22 : jsToInt (C2B32 c22) = tableVal c22 := jsToInt_C2B32 c22 hc22
  have t23 : jsToInt (C2B32 c23) = tableVal c23 := jsToInt_C2B32 c23 hc23
  have t24 : jsToInt (C2B32 c24) = tableVal c24 := jsToInt_C2B32 c24 hc24
  have t25 : jsToInt (C2B32 c25) = tableVal c25 := jsToInt_C2B32 c25 hc25
  have va0 : validB32Char c0 = true := validB32Char_of c0 hc0 hv0
  have va1 : validB32Char c1 = true := validB32Char_of c1 hc1 hv1
  have va2 : validB32Char c2 = true := validB32Char_of c2 hc2 hv2
  have va3 : validB32Char c3 = true := validB32Char_of c3 hc3 hv3
  have va4 : validB32Char c4 = true := validB32Char_of c4 hc4 hv4
  have va5 : validB32Char c5 = true := validB32Char_of c5 hc5 hv5
  have va6 : validB32Char c6 = true := validB32Char_of c6 hc6 hv6
  have va7 : validB32Char c7 = true := validB32Char_of c7 hc7 hv7
  have va8 : validB32Char c8 = true := validB32Char_of c8 hc8 hv8
  have va9 : validB32Char c9 = true := validB32Char_of c9 hc9 hv9
  have va10 : validB32Char c10 = true := validB32Char_of c10 hc10 hv10
  have va11 : validB32Char c11 = true := validB32Char_of c11 hc11 hv11
  have va12 : validB32Char c12 = true := validB32Char_of c12 hc12 hv12
  have va13 : validB32Char c13 = true := validB32Char_of c13 hc13 hv13
  have va14 : validB32Char c14 = true := validB32Char_of c14 hc14 hv14
  have va15 : validB32Char c15 = true := validB32Char_of c15 hc15 hv15
  have va16 : validB32Char c16 = true := validB32Char_of c16 hc16 hv16
  have va17 : validB32Char c17 = true := validB32Char_of c17 hc17 hv17
  have va18 : validB32Char c18 = true := validB32Char_of c18 hc18 hv18
  have va19 : validB32Char c19 = true := validB32Char_of c19 hc19 hv19
  have va20 : validB32Char c20 = true := validB32Char_of c20 hc20 hv20
  have va21 : validB32Char c21 = true := validB32Char_of c21 hc21 hv21
  have va22 : validB32Char c22 = true := validB32Char_of c22 hc22 hv22
  have va23 : validB32Char c23 = true := validB32Char_of c23 hc23 hv23
  have va24 : validB32Char c24 = true := validB32Char_of c24 hc24 hv24
  have va25 : validB32Char c25 = true := validB32Char_of c25 hc25 hv25
  have w0lt8 : tableVal c0 < 8 := tableVal_le55_lt8 c0 h55 hv0
  constructor
  · exact decodeBase32_ok _ (by simp) (by simp only [List.all_cons, List.all_nil, va0, va1, va2, va3, va4, va5, va6, va7, va8, va9, va10, va11, va12, va13, va14, va15, va16, va17, va18, va19, va20, va21, va22, va23, va24, va25, Bool.true_and]) h55
  · simp only [canonicalize, List.map_cons, List.map_nil, canonChar, decodeBytes]
    rw [t0, t1, t2, t3, t4, t5, t6, t7, t8, t9, t10, t11, t12, t13, t14, t15, t16, t17, t18, t19, t20, t21, t22, t23, t24, t25]
    rw [dec1 (tableVal c0) (tableVal c1) w1, dec2 (tableVal c2) (tableVal c3) w2 w3, dec3 (tableVal c3) (tableVal c4) (tableVal c5) w4 w5, dec4 (tableVal c5) (tableVal c6) w6, dec5 (tableVal c6) (tableVal c7) (tableVal c8) w7 w8, dec1 (tableVal c8) (tableVal c9) w9, dec2 (tableVal c10) (tableVal c11) w10 w11, dec3 (tableVal c11) (tableVal c12) (tableVal c13) w12 w13, dec4 (tableVal c13) (tableVal c14) w14, dec5 (tableVal c14) (tableVal c15) (tableVal c16) w15 w16, dec1 (tableVal c16) (tableVal c17) w17, dec2 (tableVal c18) (tableVal c19) w18 w19, dec3 (tableVal c19) (tableVal c20) (tableVal c21) w20 w21, dec4 (tableVal c21) (tableVal c22) w22, dec5 (tableVal c22) (tableVal c23) (tableVal c24) w23 w24, dec1 (tableVal c24) (tableVal c25) w25]
    unfold encodeBase32
    rw [if_neg (by simp)]
    simp only [b32chars]
    rw [m224 (tableVal c0 % 8 * 32 + tableVal c1) (by omega), andMod32 (tableVal c0 % 8 * 32 + tableVal c1), m248 (tableVal c2 * 8 + tableVal c3 / 4) (by omega), enc7_192 (tableVal c2 * 8 + tableVal c3 / 4) (tableVal c3 % 4 * 64 + tableVal c4 * 2 + tableVal c5 / 16) (by omega), m62 (tableVal c3 % 4 * 64 + tableVal c4 * 2 + tableVal c5 / 16) (by omega), enc1_240 (tableVal c3 % 4 * 64 + tableVal c4 * 2 + tableVal c5 / 16) (tableVal c5 % 16 * 16 + tableVal c6 / 2) (by omega), enc15_128 (tableVal c5 % 16 * 16 + tableVal c6 / 2) (tableVal c6 % 2 * 128 + tableVal c7 * 4 + tableVal c8 / 8) (by omega), m124 (tableVal c6 % 2 * 128 + tableVal c7 * 4 + tableVal c8 / 8) (by omega), enc3_224 (tableVal c6 % 2 * 128 + tableVal c7 * 4 + tableVal c8 / 8) (tableVal c8 % 8 * 32 + tableVal c9) (by omega), andMod32 (tableVal c8 % 8 * 32 + tableVal c9), m248 (tableVal c10 * 8 + tableVal c11 / 4) (by omega), enc7_192 (tableVal c10 * 8 + tableVal c11 / 4) (tableVal c11 % 4 * 64 + tableVal c12 * 2 + tableVal c13 / 16) (by omega), m62 (tableVal c11 % 4 * 64 + tableVal c12 * 2 + tableVal c13 / 16) (by omega), enc1_240 (tableVal c11 % 4 * 64 + tableVal c12 * 2 + tableVal c13 / 16) (tableVal c13 % 16 * 16 + tableVal c14 / 2) (by omega), enc15_128 (tableVal c13 % 16 * 16 + tableVal c14 / 2) (tableVal c14 % 2 * 128 + tableVal c15 * 4 + tableVal c16 / 8) (by omega), m124 (tableVal c14 % 2 * 128 + tableVal c15 * 4 + tableVal c16 / 8) (by omega), enc3_224 (tableVal c14 % 2 * 128 + tableVal c15 * 4 + tableVal c16 / 8) (tableVal c16 % 8 * 32 + tableVal c17) (by omega), andMod32 (tableVal c16 % 8 * 32 + tableVal c17), m248 (tableVal c18 * 8 + tableVal c19 / 4) (by omega), enc7_192 (tableVal c18 * 8 + tableVal c19 / 4) (tableVal c19 % 4 * 64 + tableVal c20 * 2 + tableVal c21 / 16) (by omega), m62 (tableVal c19 % 4 * 64 + tableVal c20 * 2 + tableVal c21 / 16) (by omega), enc1_240 (tableVal c19 % 4 * 64 + tableVal c20 * 2 + tableVal c21 / 16) (tableVal c21 % 16 * 16 + tableVal c22 / 2) (by omega), enc15_128 (tableVal c21 % 16 * 16 + tableVal c22 / 2) (tableVal c22 % 2 * 128 + tableVal c23 * 4 + tableVal c24 / 8) (by omega), m124 (tableVal c22 % 2 * 128 + tableVal c23 * 4 + tableVal c24 / 8) (by omega), enc3_224 (tableVal c22 % 2 * 128 + tableVal c23 * 4 + tableVal c24 / 8) (tableVal c24 % 8 * 32 + tableVal c25) (by omega), andMod32 (tableVal c24 % 8 * 32 + tableVal c25)]
    clear t0 t1 t2 t3 t4 t5 t6 t7 t8 t9 t10 t11 t12 t13 t14 t15 t16 t17 t18 t19 t20 t21 t22 t23 t24 t25 va0 va1 va2 va3 va4 va5 va6 va7 va8 va9 va10 va11 va12 va13 va14 va15 va16 va17 va18 va19 va20 va21 va22 va23 va24 va25
    simp only [Except.ok.injEq, List.cons.injEq, and_true]
    refine ⟨?_, ?_, ?_, ?_, ?_, ?_, ?_, ?_, ?_, ?_, ?_, ?_, ?_, ?_, ?_, ?_, ?_, ?_, ?_, ?_, ?_, ?_, ?_, ?_, ?_, ?_⟩ <;> exact congrArg encChar (by omega)


/-- A character accepted by the decode table is in range with a non-0xFF
entry. -/
theorem valid_char_inv (c : Nat) (h1 : C2B32 c ≠ none) (h2 : C2B32 c ≠ some 255) :
    c < 256 ∧ tableVal c ≠ 255 := by
  unfold C2B32 at h1 h2
  by_cases hc : c < 256
  · rw [if_pos hc] at h2
    refine ⟨hc, fun he => h2 ?_⟩
    rw [he]
  · rw [if_neg hc] at h1
    exact absurd rfl h1

/-- C5 counterexample: the string `"O" ++ "0"*25` is syntactically valid
after confusable substitution (`O` maps through the table to alphabet
value 0 ≤ 7), yet `decodeBase32` rejects it with the overflow error,
because the guard compares the raw character code of `O` (79) against
the code of `7` (55). -/
theorem c5_confusable_first_char_refuted :
    (79 :: List.replicate 25 48).length = 26 ∧
    (∀ c ∈ (79 :: List.replicate 25 48), C2B32 c ≠ none ∧ C2B32 c ≠ some 255) ∧
    C2B32 (g (79 :: List.replicate 25 48) 0) = some 0 ∧
    decodeBase32 (79 :: List.replicate 25 48) = .error .overflow := by
  decide

/-- C5 amended: for every 26-character string of table-valid characters
whose FIRST character has code at most 55 (a literal digit `0`-`7` —
not merely one mapping to a value ≤ 7), decoding succeeds and
re-encoding the bytes gives the canonicalized string. -/
theorem c5_decode_canonicalize (s : List Nat) (h26 : s.length = 26)
    (hv : ∀ c ∈ s, C2B32 c ≠ none ∧ C2B32 c ≠ some 255) (h55 : g s 0 ≤ 55) :
    ∃ bytes, decodeBase32 s = .ok bytes ∧ encodeBase32 bytes = .ok (canonicalize s) := by
  obtain ⟨c0, m1, rfl, hm1⟩ := exists_cons_of_length_succ s 25 h26
  obtain ⟨c1, m2, rfl, hm2⟩ := exists_cons_of_length_succ m1 24 hm1
  obtain ⟨c2, m3, rfl, hm3⟩ := exists_cons_of_length_succ m2 23 hm2
  obtain ⟨c3, m4, rfl, hm4⟩ := exists_cons_of_length_succ m3 22 hm3
  obtain ⟨c4, m5, rfl, hm5⟩ := exists_cons_of_length_succ m4 21 hm4
  obtain ⟨c5, m6, rfl, hm6⟩ := exists_cons_of_length_succ m5 20 hm5
  obtain ⟨c6, m7, rfl, hm7⟩ := exists_cons_of_length_succ m6 19 hm6
  obtain ⟨c7, m8, rfl, hm8⟩ := exists_cons_of_length_succ m7 18 hm7
  obtain ⟨c8, m9, rfl, hm9⟩ := exists_cons_of_length_succ m8 17 hm8
  obtain ⟨c9, m10, rfl, hm10⟩ := exists_cons_of_length_succ m9 16 hm9
  obtain ⟨c10, m11, rfl, hm11⟩ := exists_cons_of_length_succ m10 15 hm10
  obtain ⟨c11, m12, rfl, hm12⟩ := exists_cons_of_length_succ m11 14 hm11
  obtain ⟨c12, m13, rfl, hm13⟩ := exists_cons_of_length_succ m12 13 hm12
  obtain ⟨c13, m14, rfl, hm14⟩ := exists_cons_of_length_succ m13 12 hm13
  obtain ⟨c14, m15, rfl, hm15⟩ := exists_cons_of_length_succ m14 11 hm14
  obtain ⟨c15, m16, rfl, hm16⟩ := exists_cons_of_length_succ m15 10 hm15
  obtain ⟨c16, m17, rfl, hm17⟩ := exists_cons_of_length_succ m16 9 hm16
  obtain ⟨c17, m18, rfl, hm18⟩ := exists_cons_of_length_succ m17 8 hm17
  obtain ⟨c18, m19, rfl, hm19⟩ := exists_cons_of_length_succ m18 7 hm18
  obtain ⟨c19, m20, rfl, hm20⟩ := exists_cons_of_length_succ m19 6 hm19
  obtain ⟨c20, m21, rfl, hm21⟩ := exists_cons_of_length_succ m20 5 hm20
  obtain ⟨c21, m22, rfl, hm22⟩ := exists_cons_of_length_succ m21 4 hm21
  obtain ⟨c22, m23, rfl, hm23⟩ := exists_cons_of_length_succ m22 3 hm22
  obtain ⟨c23, m24, rfl, hm24⟩ := exists_cons_of_length_succ m23 2 hm23
  obtain ⟨c24, m25, rfl, hm25⟩ := exists_cons_of_length_succ m24 1 hm24
  obtain ⟨c25, m26, rfl, hm26⟩ := exists_cons_of_length_succ m25 0 hm25
  rw [List.length_eq_zero.mp hm26]
  rw [List.length_eq_zero.mp hm26] at hv
  have hp0 := valid_char_inv c0 (hv c0 (by simp)).1 (hv c0 (by simp)).2
  have hp1 := valid_char_inv c1 (hv c1 (by simp)).1 (hv c1 (by simp)).2
  have hp2 := valid_char_inv c2 (hv c2 (by simp)).1 (hv c2 (by simp)).2
  have hp3 := valid_char_inv c3 (hv c3 (by simp)).1 (hv c3 (by simp)).2
  have hp4 := valid_char_inv c4 (hv c4 (by simp)).1 (hv c4 (by simp)).2
  have hp5 := valid_char_inv c5 (hv c5 (by simp)).1 (hv c5 (by simp)).2
  have hp6 := valid_char_inv c6 (hv c6 (by simp)).1 (hv c6 (by simp)).2
  have hp7 := valid_char_inv c7 (hv c7 (by simp)).1 (hv c7 (by simp)).2
  have hp8 := valid_char_inv c8 (hv c8 (by simp)).1 (hv c8 (by simp)).2
  have hp9 := valid_char_inv c9 (hv c9 (by simp)).1 (hv c9 (by simp)).2
  have hp10 := valid_char_inv c10 (hv c10 (by simp)).1 (hv c10 (by simp)).2
  have hp11 := valid_char_inv c11 (hv c11 (by simp)).1 (hv c11 (by simp)).2
  have hp12 := valid_char_inv c12 (hv c12 (by simp)).1 (hv c12 (by simp)).2
  have hp13 := valid_char_inv c13 (hv c13 (by simp)).1 (hv c13 (by simp)).2
  have hp14 := valid_char_inv c14 (hv c14 (by simp)).1 (hv c14 (by simp)).2
  have hp15 := valid_char_inv c15 (hv c15 (by simp)).1 (hv c15 (by simp)).2
  have hp16 := valid_char_inv c16 (hv c16 (by simp)).1 (hv c16 (by simp)).2
  have hp17 := valid_char_inv c17 (hv c17 (by simp)).1 (hv c17 (by simp)).2
  have hp18 := valid_char_inv c18 (hv c18 (by simp)).1 (hv c18 (by simp)).2
  have hp19 := valid_char_inv c19 (hv c19 (by simp)).1 (hv c19 (by simp)).2
  have hp20 := valid_char_inv c20 (hv c20 (by simp)).1 (hv c20 (by simp)).2
  have hp21 := valid_char_inv c21 (hv c21 (by simp)).1 (hv c21 (by simp)).2
  have hp22 := valid_char_inv c22 (hv c22 (by simp)).1 (hv c22 (by simp)).2
  have hp23 := valid_char_inv c23 (hv c23 (by simp)).1 (hv c23 (by simp)).2
  have hp24 := valid_char_inv c24 (hv c24 (by simp)).1 (hv c24 (by simp)).2
  have hp25 := valid_char_inv c25 (hv c25 (by simp)).1 (hv c25 (by simp)).2
  have h := decode_then_encode26 c0 c1 c2 c3 c4 c5 c6 c7 c8 c9 c10 c11 c12 c13 c14 c15 c16 c17 c18 c19 c20 c21 c22 c23 c24 c25
    hp0.1 hp1.1 hp2.1 hp3.1 hp4.1 hp5.1 hp6.1 hp7.1 hp8.1 hp9.1 hp10.1 hp11.1 hp12.1 hp13.1 hp14.1 hp15.1 hp16.1 hp17.1 hp18.1 hp19.1 hp20.1 hp21.1 hp22.1 hp23.1 hp24.1 hp25.1
    hp0.2 hp1.2 hp2.2 hp3.2 hp4.2 hp5.2 hp6.2 hp7.2 hp8.2 hp9.2 hp10.2 hp11.2 hp12.2 hp13.2 hp14.2 hp15.2 hp16.2 hp17.2 hp18.2 hp19.2 hp20.2 hp21.2 hp22.2 hp23.2 hp24.2 hp25.2
    h55
  exact ⟨_, h.1, h.2⟩

/-- Witness for the amended C5 on `"0o1iLu" ++ "0"*20`, exercising the
lowercase and confusable substitutions. -/
theorem c5_decode_canonicalize_witness :
    ∃ bytes, decodeBase32 (48 :: 111 :: 49 :: 105 :: 76 :: 117 :: List.replicate 20 48) =
        .ok bytes ∧
      encodeBase32 bytes =
        .ok (canonicalize (48 :: 111 :: 49 :: 105 :: 76 :: 117 :: List.replicate 20 48)) :=
  c5_decode_canonicalize (48 :: 111 :: 49 :: 105 :: 76 :: 117 :: List.replicate 20 48)
    (by decide) (by decide) (by decide)


/-- A base-32 digit of `t` seen below `32 ^ (d + 1)`. -/
theorem digit_mod (t d : Nat) : t / 32 ^ d % 32 = t % 32 ^ (d + 1) / 32 ^ d := by
  rw [pow_succ]
  exact (Nat.mod_mul_right_div_self t (32 ^ d) 32).symm

/-- `digitsBE` lists have the expected length. -/
theorem digitsBE_length (d : Nat) : ∀ t, (digitsBE d t).length = d := by
  induction d with
  | zero => intro t; rfl
  | succ d ih =>
    intro t
    simp [digitsBE, ih]

/-- Lexicographic comparison of equal-length prefixes transfers to any
extensions. -/
theorem jsStrLt_append (p1 : List Nat) : ∀ p2 r1 r2 : List Nat, p1.length = p2.length →
    jsStrLt p1 p2 = true → jsStrLt (p1 ++ r1) (p2 ++ r2) = true := by
  induction p1 with
  | nil =>
    intro p2 r1 r2 hlen h
    rw [(List.length_eq_zero).mp hlen.symm] at h
    simp [jsStrLt] at h
  | cons a l1 ih =>
    intro p2 r1 r2 hlen h
    obtain ⟨b, l2, rfl, hl2⟩ := exists_cons_of_length_succ p2 l1.length hlen.symm
    simp only [List.cons_append]
    simp only [jsStrLt] at h ⊢
    by_cases hab : a < b
    · rw [if_pos hab]
    · rw [if_neg hab] at h ⊢
      by_cases heq : a = b
      · rw [if_pos heq] at h ⊢
        exact ih l2 r1 r2 hl2.symm h
      · rw [if_neg heq] at h
        cases h

/-- Strictly ordered values below `32 ^ d` have lexicographically ordered
digit strings under the (strictly increasing) alphabet. -/
theorem jsStrLt_digits (d : Nat) : ∀ t1 t2 : Nat, t1 % 32 ^ d < t2 % 32 ^ d →
    jsStrLt ((digitsBE d t1).map encChar) ((digitsBE d t2).map encChar) = true := by
  induction d with
  | zero =>
    intro t1 t2 h
    omega
  | succ d ih =>
    intro t1 t2 h
    have hp : 0 < 32 ^ d := Nat.pos_pow_of_pos d (by omega)
    have ha1 : t1 / 32 ^ d % 32 = t1 % 32 ^ (d + 1) / 32 ^ d := digit_mod t1 d
    have ha2 : t2 / 32 ^ d % 32 = t2 % 32 ^ (d + 1) / 32 ^ d := digit_mod t2 d
    have hb1 : t1 / 32 ^ d % 32 < 32 := Nat.mod_lt _ (by omega)
    have hb2 : t2 / 32 ^ d % 32 < 32 := Nat.mod_lt _ (by omega)
    have hle : t1 % 32 ^ (d + 1) / 32 ^ d ≤ t2 % 32 ^ (d + 1) / 32 ^ d :=
      Nat.div_le_div_right (by omega)
    simp only [digitsBE, List.map_cons, jsStrLt]
    by_cases hq : t1 / 32 ^ d % 32 < t2 / 32 ^ d % 32
    · rw [if_pos (encChar_strictMono _ hb1 _ hb2 hq)]
    · have heq : t1 / 32 ^ d % 32 = t2 / 32 ^ d % 32 := by omega
      rw [heq, if_neg (lt_irrefl _), if_pos rfl]
      refine ih t1 t2 ?_
      have hmm1 : t1 % 32 ^ (d + 1) % 32 ^ d = t1 % 32 ^ d :=
        Nat.mod_mod_of_dvd t1 (pow_dvd_pow 32 (by omega))
      have hmm2 : t2 % 32 ^ (d + 1) % 32 ^ d = t2 % 32 ^ d :=
        Nat.mod_mod_of_dvd t2 (pow_dvd_pow 32 (by omega))
      have hd1 := Nat.div_add_mod (t1 % 32 ^ (d + 1)) (32 ^ d)
      have hd2 := Nat.div_add_mod (t2 % 32 ^ (d + 1)) (32 ^ d)
      rw [ha1, ha2] at heq
      rw [heq] at hd1
      rw [hmm1] at hd1
      rw [hmm2] at hd2
      generalize hK : 32 ^ d * (t2 % 32 ^ (d + 1) / 32 ^ d) = K at hd1 hd2
      omega


set_option maxHeartbeats 1600000 in
/-- The first 10 characters of the encoding of a buffer whose leading
six bytes carry a 48-bit timestamp are exactly the base-32 digits of
that timestamp through the alphabet. -/
theorem b32chars_ts_prefix (t sh sl e0 e1 e2 e3 e4 e5 e6 e7 : Nat)
    (ht : t < 281474976710656) :
    b32chars [t / 256 / 256 / 256 / 256 / 256 % 256, t / 256 / 256 / 256 / 256 % 256, t / 256 / 256 / 256 % 256, t / 256 / 256 % 256, t / 256 % 256, t % 256, sh, sl, e0, e1, e2, e3, e4, e5, e6, e7] =
      (digitsBE 10 t).map encChar ++
        [encChar ((sh &&& 248) >>> 3), encChar (((sh &&& 7) <<< 2) ||| ((sl &&& 192) >>> 6)), encChar ((sl &&& 62) >>> 1), encChar (((sl &&& 1) <<< 4) ||| ((e0 &&& 240) >>> 4)), encChar (((e0 &&& 15) <<< 1) ||| ((e1 &&& 128) >>> 7)), encChar ((e1 &&& 124) >>> 2), encChar (((e1 &&& 3) <<< 3) ||| ((e2 &&& 224) >>> 5)), encChar (e2 &&& 31), encChar ((e3 &&& 248) >>> 3), encChar (((e3 &&& 7) <<< 2) ||| ((e4 &&& 192) >>> 6)), encChar ((e4 &&& 62) >>> 1), encChar (((e4 &&& 1) <<< 4) ||| ((e5 &&& 240) >>> 4)), encChar (((e5 &&& 15) <<< 1) ||| ((e6 &&& 128) >>> 7)), encChar ((e6 &&& 124) >>> 2), encChar (((e6 &&& 3) <<< 3) ||| ((e7 &&& 224) >>> 5)), encChar (e7 &&& 31)] := by
  rw [show digitsBE 10 t = [t / 35184372088832 % 32, t / 1099511627776 % 32, t / 34359738368 % 32, t / 1073741824 % 32, t / 33554432 % 32, t / 1048576 % 32, t / 32768 % 32, t / 1024 % 32, t / 32 % 32, t / 1 % 32] from rfl]
  simp only [List.map_cons, List.map_nil, List.cons_append, List.nil_append]
  simp only [b32chars]
  rw [m224 (t / 256 / 256 / 256 / 256 / 256 % 256) (by omega), andMod32 (t / 256 / 256 / 256 / 256 / 256 % 256), m248 (t / 256 / 256 / 256 / 256 % 256) (by omega), enc7_192 (t / 256 / 256 / 256 / 256 % 256) (t / 256 / 256 / 256 % 256) (by omega), m62 (t / 256 / 256 / 256 % 256) (by omega), enc1_240 (t / 256 / 256 / 256 % 256) (t / 256 / 256 % 256) (by omega), enc15_128 (t / 256 / 256 % 256) (t / 256 % 256) (by omega), m124 (t / 256 % 256) (by omega), enc3_224 (t / 256 % 256) (t % 256) (by omega), andMod32 (t % 256)]
  simp only [List.cons.injEq, and_true, eq_self_iff_true, true_and]
  and_intros <;>
    first
    | rfl
    | exact congrArg encChar (by omega)


/-- C6: strictly increasing timestamps give strictly increasing
26-character Base32 strings under plain JavaScript string comparison,
for arbitrary valid scopes and entropies. -/
theorem c6_timestamp_monotonic (t1 s1 : Int) (e1 : List Nat) (x : pULID)
    (t2 s2 : Int) (e2 : List Nat) (y : pULID)
    (hx : pULID.new t1 s1 e1 = .ok x) (hy : pULID.new t2 s2 e2 = .ok y)
    (hlt : x.timestamp < y.timestamp) :
    ∃ sx sy, pULID.toStr x = .ok sx ∧ pULID.toStr y = .ok sy ∧
      jsStrLt sx sy = true := by
  obtain ⟨hxt0, hxt1, hxe8, hxt, hxe, hxsc, hxs1, hxs2⟩ := pULID_new_inv t1 s1 e1 x hx
  obtain ⟨hyt0, hyt1, hye8, hyt, hye, hysc, hys1, hys2⟩ := pULID_new_inv t2 s2 e2 y hy
  have hxtL : x.timestamp ≤ 281474976710655 := by
    have h2 := hxt1
    rw [show MAX_TIMESTAMP = 281474976710655 from rfl] at h2
    omega
  have hytL : y.timestamp ≤ 281474976710655 := by
    have h2 := hyt1
    rw [show MAX_TIMESTAMP = 281474976710655 from rfl] at h2
    omega
  obtain ⟨p0, a1, rfl, ha1⟩ := exists_cons_of_length_succ e1 7 hxe8
  obtain ⟨p1, a2, rfl, ha2⟩ := exists_cons_of_length_succ a1 6 ha1
  obtain ⟨p2, a3, rfl, ha3⟩ := exists_cons_of_length_succ a2 5 ha2
  obtain ⟨p3, a4, rfl, ha4⟩ := exists_cons_of_length_succ a3 4 ha3
  obtain ⟨p4, a5, rfl, ha5⟩ := exists_cons_of_length_succ a4 3 ha4
  obtain ⟨p5, a6, rfl, ha6⟩ := exists_cons_of_length_succ a5 2 ha5
  obtain ⟨p6, a7, rfl, ha7⟩ := exists_cons_of_length_succ a6 1 ha6
  obtain ⟨p7, a8, rfl, ha8⟩ := exists_cons_of_length_succ a7 0 ha7
  rw [List.length_eq_zero.mp ha8] at hxe
  obtain ⟨q0, b1, rfl, hb1⟩ := exists_cons_of_length_succ e2 7 hye8
  obtain ⟨q1, b2, rfl, hb2⟩ := exists_cons_of_length_succ b1 6 hb1
  obtain ⟨q2, b3, rfl, hb3⟩ := exists_cons_of_length_succ b2 5 hb2
  obtain ⟨q3, b4, rfl, hb4⟩ := exists_cons_of_length_succ b3 4 hb3
  obtain ⟨q4, b5, rfl, hb5⟩ := exists_cons_of_length_succ b4 3 hb4
  obtain ⟨q5, b6, rfl, hb6⟩ := exists_cons_of_length_succ b5 2 hb5
  obtain ⟨q6, b7, rfl, hb7⟩ := exists_cons_of_length_succ b6 1 hb6
  obtain ⟨q7, b8, rfl, hb8⟩ := exists_cons_of_length_succ b7 0 hb7
  rw [List.length_eq_zero.mp hb8] at hye
  have htbx : pULID.toBytes x = .ok (x.timestamp.toNat / 256 / 256 / 256 / 256 / 256 % 256 :: x.timestamp.toNat / 256 / 256 / 256 / 256 % 256 :: x.timestamp.toNat / 256 / 256 / 256 % 256 :: x.timestamp.toNat / 256 / 256 % 256 :: x.timestamp.toNat / 256 % 256 :: x.timestamp.toNat % 256 :: x.scope.toNat / 256 :: x.scope.toNat % 256 :: x.entropy) :=
    toBytes_ok x.timestamp x.scope x.entropy (by omega) (by omega) hxs1 hxs2
  have htby : pULID.toBytes y = .ok (y.timestamp.toNat / 256 / 256 / 256 / 256 / 256 % 256 :: y.timestamp.toNat / 256 / 256 / 256 / 256 % 256 :: y.timestamp.toNat / 256 / 256 / 256 % 256 :: y.timestamp.toNat / 256 / 256 % 256 :: y.timestamp.toNat / 256 % 256 :: y.timestamp.toNat % 256 :: y.scope.toNat / 256 :: y.scope.toNat % 256 :: y.entropy) :=
    toBytes_ok y.timestamp y.scope y.entropy (by omega) (by omega) hys1 hys2
  rw [hxe] at htbx
  rw [hye] at htby
  have hstrx : pULID.toStr x = .ok (b32chars (x.timestamp.toNat / 256 / 256 / 256 / 256 / 256 % 256 :: x.timestamp.toNat / 256 / 256 / 256 / 256 % 256 :: x.timestamp.toNat / 256 / 256 / 256 % 256 :: x.timestamp.toNat / 256 / 256 % 256 :: x.timestamp.toNat / 256 % 256 :: x.timestamp.toNat % 256 :: x.scope.toNat / 256 :: x.scope.toNat % 256 :: p0 :: p1 :: p2 :: p3 :: p4 :: p5 :: p6 :: p7 :: [])) := by
    unfold pULID.toStr
    rw [htbx]
    show encodeBase32 (x.timestamp.toNat / 256 / 256 / 256 / 256 / 256 % 256 :: x.timestamp.toNat / 256 / 256 / 256 / 256 % 256 :: x.timestamp.toNat / 256 / 256 / 256 % 256 :: x.timestamp.toNat / 256 / 256 % 256 :: x.timestamp.toNat / 256 % 256 :: x.timestamp.toNat % 256 :: x.scope.toNat / 256 :: x.scope.toNat % 256 :: p0 :: p1 :: p2 :: p3 :: p4 :: p5 :: p6 :: p7 :: []) = _
    unfold encodeBase32
    rw [if_neg (by simp)]
  have hstry : pULID.toStr y = .ok (b32chars (y.timestamp.toNat / 256 / 256 / 256 / 256 / 256 % 256 :: y.timestamp.toNat / 256 / 256 / 256 / 256 % 256 :: y.timestamp.toNat / 256 / 256 / 256 % 256 :: y.timestamp.toNat / 256 / 256 % 256 :: y.timestamp.toNat / 256 % 256 :: y.timestamp.toNat % 256 :: y.scope.toNat / 256 :: y.scope.toNat % 256 :: q0 :: q1 :: q2 :: q3 :: q4 :: q5 :: q6 :: q7 :: [])) := by
    unfold pULID.toStr
    rw [htby]
    show encodeBase32 (y.timestamp.toNat / 256 / 256 / 256 / 256 / 256 % 256 :: y.timestamp.toNat / 256 / 256 / 256 / 256 % 256 :: y.timestamp.toNat / 256 / 256 / 256 % 256 :: y.timestamp.toNat / 256 / 256 % 256 :: y.timestamp.toNat / 256 % 256 :: y.timestamp.toNat % 256 :: y.scope.toNat / 256 :: y.scope.toNat % 256 :: q0 :: q1 :: q2 :: q3 :: q4 :: q5 :: q6 :: q7 :: []) = _
    unfold encodeBase32
    rw [if_neg (by simp)]
  have hpx := b32chars_ts_prefix x.timestamp.toNat (x.scope.toNat / 256)
    (x.scope.toNat % 256) p0 p1 p2 p3 p4 p5 p6 p7 (by omega)
  have hpy := b32chars_ts_prefix y.timestamp.toNat (y.scope.toNat / 256)
    (y.scope.toNat % 256) q0 q1 q2 q3 q4 q5 q6 q7 (by omega)
  refine ⟨_, _, hstrx, hstry, ?_⟩
  rw [show (x.timestamp.toNat / 256 / 256 / 256 / 256 / 256 % 256 :: x.timestamp.toNat / 256 / 256 / 256 / 256 % 256 :: x.timestamp.toNat / 256 / 256 / 256 % 256 :: x.timestamp.toNat / 256 / 256 % 256 :: x.timestamp.toNat / 256 % 256 :: x.timestamp.toNat % 256 :: x.scope.toNat / 256 :: x.scope.toNat % 256 :: p0 :: p1 :: p2 :: p3 :: p4 :: p5 :: p6 :: p7 :: [] : List Nat) = [x.timestamp.toNat / 256 / 256 / 256 / 256 / 256 % 256, x.timestamp.toNat / 256 / 256 / 256 / 256 % 256, x.timestamp.toNat / 256 / 256 / 256 % 256, x.timestamp.toNat / 256 / 256 % 256, x.timestamp.toNat / 256 % 256, x.timestamp.toNat % 256, x.scope.toNat / 256, x.scope.toNat % 256, p0, p1, p2, p3, p4, p5, p6, p7] from rfl]
  rw [show (y.timestamp.toNat / 256 / 256 / 256 / 256 / 256 % 256 :: y.timestamp.toNat / 256 / 256 / 256 / 256 % 256 :: y.timestamp.toNat / 256 / 256 / 256 % 256 :: y.timestamp.toNat / 256 / 256 % 256 :: y.timestamp.toNat / 256 % 256 :: y.timestamp.toNat % 256 :: y.scope.toNat / 256 :: y.scope.toNat % 256 :: q0 :: q1 :: q2 :: q3 :: q4 :: q5 :: q6 :: q7 :: [] : List Nat) = [y.timestamp.toNat / 256 / 256 / 256 / 256 / 256 % 256, y.timestamp.toNat / 256 / 256 / 256 / 256 % 256, y.timestamp.toNat / 256 / 256 / 256 % 256, y.timestamp.toNat / 256 / 256 % 256, y.timestamp.toNat / 256 % 256, y.timestamp.toNat % 256, y.scope.toNat / 256, y.scope.toNat % 256, q0, q1, q2, q3, q4, q5, q6, q7] from rfl]
  rw [hpx, hpy]
  apply jsStrLt_append
  · simp [digitsBE_length]
  · apply jsStrLt_digits
    rw [show (32 : Nat) ^ 10 = 1125899906842624 from by norm_num]
    rw [Nat.mod_eq_of_lt (by omega), Nat.mod_eq_of_lt (by omega)]
    omega


/-- Witness for C6 at timestamps 5 and 6. -/
theorem c6_timestamp_monotonic_witness :
    pULID.new 5 1 (List.replicate 8 0) = .ok ⟨5, 1, List.replicate 8 0⟩ ∧
    pULID.new 6 1 (List.replicate 8 0) = .ok ⟨6, 1, List.replicate 8 0⟩ ∧
    (∃ sx sy, pULID.toStr ⟨5, 1, List.replicate 8 0⟩ = .ok sx ∧
       pULID.toStr ⟨6, 1, List.replicate 8 0⟩ = .ok sy ∧ jsStrLt sx sy = true) :=
  ⟨by decide, by decide,
   c6_timestamp_monotonic 5 1 (List.replicate 8 0) ⟨5, 1, List.replicate 8 0⟩
     6 1 (List.replicate 8 0) ⟨6, 1, List.replicate 8 0⟩
     (by decide) (by decide) (by decide)⟩


end PULID
